import Mathlib

/-!
# Verification of the Viewer Bridge + Versioned Render Host subsystem

Shallow embedding, in Lean 4, of the core logic of the three.js JSON font
editor repository:

* the Compatibility Resolver of `docs/js/three-versioner.js`
  (`_normalizeVersion`, `_isVersionInRange`, `_extractVersion`,
  `_generateIframeHtml` / `get_html_legacy` / `get_html_module`),
* the compatibility-profile construction of `viewer/viewer-legacy.js` and
  `viewer/viewer-module.js`,
* the Render Host state machine of `viewer/viewer-core.js`
  (`updateViewer`, `setMaterial`, `setWireframeMode`, `applyRestoredState`,
  `handleFontDataForRestore`, `updateBoundingBoxHelper`,
  `reportErrorToParent`, `isThreeJsError`),
* the Bridge of `docs/js/viewer-bridge.js`
  (`sendViewerMessage`, `requestAndReload`, `reloadViewerWithVersion`).

JavaScript strings are modelled as Lean `String`s (and, where character-level
reasoning is necessary, their underlying `List Char`).  JavaScript numbers
that carry scene coordinates are modelled as rationals `ℚ`; the comparison
loops of `_isVersionInRange` work on `Option Nat` components (`none` models a
`NaN`/`undefined` component, on which every `<`/`>` comparison is false, as
in JavaScript).  External collaborators that the Render Host receives by
injection (the font parser, the `TextGeometry` constructor, `camera.lookAt`
and the trigonometric part of `frameObject`) are abstracted as fields of an
environment record `Env`; every claim below is proved for an arbitrary
environment unless the claim itself pins the environment down.
-/

namespace FontViewer

/-! ## Compatibility Resolver: version-string helpers

Source: `docs/js/three-versioner.js`.  Characters and character lists stand
for JavaScript strings. -/

/-- The character class `[0-9]` used by `/^[0-9]+$/` in `_normalizeVersion`. -/
def isDigitCh (c : Char) : Bool := ('0' ≤ c) && (c ≤ '9')

/-- `_normalizeVersion` (three-versioner.js lines 73-85) on the character
list of its argument: an empty (falsy) string gives `"0.0.0"`; a string
starting with `'r'` gives `"0." + rest + ".0"`; an all-digits string `N`
gives `"0." + N + ".0"`; anything else is returned unchanged. -/
def normalizeVersionL : List Char → List Char
  | [] => ['0', '.', '0', '.', '0']
  | c :: cs =>
    if c = 'r' then '0' :: '.' :: (cs ++ ['.', '0'])
    else if (c :: cs).all isDigitCh then '0' :: '.' :: ((c :: cs) ++ ['.', '0'])
    else c :: cs

/-- `_normalizeVersion` on `String`s. -/
def normalizeVersion (s : String) : String := ⟨normalizeVersionL s.data⟩

/-- JavaScript `String.prototype.split('.')`: splitting on `'.'` keeps empty
fragments, and splitting the empty string yields `[""]`. -/
def splitOnDot : List Char → List (List Char)
  | [] => [[]]
  | c :: cs =>
    if c = '.' then [] :: splitOnDot cs
    else
      match splitOnDot cs with
      | [] => [[c]]
      | p :: ps => (c :: p) :: ps

/-- Numeric value of a digit list (most significant first). -/
def digitsVal (l : List Char) : Nat :=
  l.foldl (fun n c => 10 * n + (c.toNat - '0'.toNat)) 0

/-- JavaScript `Number` on a version component: the empty string converts to
`0`, a digit string to its value, and anything else reachable from a version
component (letters, stray `r`s) to `NaN`, modelled as `none`. -/
def jsNumber (l : List Char) : Option Nat :=
  if l = [] then some 0
  else if l.all isDigitCh then some (digitsVal l)
  else none

/-- `v1[i] > v2[i]` in JavaScript: only true when both sides are actual
numbers (`undefined` out-of-range reads and `NaN` components compare false).
The outer `Option` is the `Array.prototype` read, the inner one `NaN`. -/
def jsGtC : Option (Option Nat) → Option (Option Nat) → Bool
  | some (some a), some (some b) => b < a
  | _, _ => false

/-- `v1[i] < v2[i]` in JavaScript, same conventions as `jsGtC`. -/
def jsLtC : Option (Option Nat) → Option (Option Nat) → Bool
  | some (some a), some (some b) => a < b
  | _, _ => false

/-- The `isGreaterOrEqual` closure of `_isVersionInRange` (lines 100-106):
a three-iteration loop returning early on the first strictly larger or
strictly smaller component, `true` when the loop ends. -/
def isGreaterOrEqual (v1 v2 : List (Option Nat)) : Bool :=
  if jsGtC (v1.get? 0) (v2.get? 0) then true
  else if jsLtC (v1.get? 0) (v2.get? 0) then false
  else if jsGtC (v1.get? 1) (v2.get? 1) then true
  else if jsLtC (v1.get? 1) (v2.get? 1) then false
  else if jsGtC (v1.get? 2) (v2.get? 2) then true
  else if jsLtC (v1.get? 2) (v2.get? 2) then false
  else true

/-- The `isLessOrEqual` closure of `_isVersionInRange` (lines 108-114). -/
def isLessOrEqual (v1 v2 : List (Option Nat)) : Bool :=
  if jsLtC (v1.get? 0) (v2.get? 0) then true
  else if jsGtC (v1.get? 0) (v2.get? 0) then false
  else if jsLtC (v1.get? 1) (v2.get? 1) then true
  else if jsGtC (v1.get? 1) (v2.get? 1) then false
  else if jsLtC (v1.get? 2) (v2.get? 2) then true
  else if jsGtC (v1.get? 2) (v2.get? 2) then false
  else true

/-- `_normalizeVersion(x).split('.').map(Number)`, the component list each
argument of `_isVersionInRange` is reduced to. -/
def versionComponents (s : String) : List (Option Nat) :=
  (splitOnDot (normalizeVersionL s.data)).map jsNumber

/-- `_isVersionInRange` (three-versioner.js lines 95-117). -/
def isVersionInRange (versionToCheck rangeStart rangeEnd : String) : Bool :=
  isGreaterOrEqual (versionComponents versionToCheck) (versionComponents rangeStart)
    && isLessOrEqual (versionComponents versionToCheck) (versionComponents rangeEnd)

/-- Inclusive component-wise lexicographic order on number triples — the
order the spec says `isVersionInRange` implements. -/
def lexLe (a b : Nat × Nat × Nat) : Prop :=
  a.1 < b.1 ∨ (a.1 = b.1 ∧ (a.2.1 < b.2.1 ∨ (a.2.1 = b.2.1 ∧ a.2.2 ≤ b.2.2)))

instance (a b : Nat × Nat × Nat) : Decidable (lexLe a b) := by
  unfold lexLe; infer_instance

/-- The component list of a version that normalizes to three plain numbers. -/
def tripleComponents (a : Nat × Nat × Nat) : List (Option Nat) :=
  [some a.1, some a.2.1, some a.2.2]

theorem isDigitCh_dot : isDigitCh '.' = false := by decide

theorem all_digits_cons_dot (c : Char) (l r : List Char) :
    ((c :: '.' :: (l ++ r)).all isDigitCh) = false := by
  simp [List.all_cons, isDigitCh_dot]

/-- One application of `_normalizeVersion` already lands on a fixed point. -/
theorem normalizeVersionL_idem (l : List Char) :
    normalizeVersionL (normalizeVersionL l) = normalizeVersionL l := by
  match l with
  | [] => rfl
  | c :: cs =>
    by_cases hr : c = 'r'
    · subst hr
      have h1 : normalizeVersionL ('r' :: cs) = '0' :: '.' :: (cs ++ ['.', '0']) := by
        simp [normalizeVersionL]
      have hall : (('0' :: '.' :: (cs ++ ['.', '0'])).all isDigitCh) = false := by
        simp [List.all_cons, isDigitCh_dot]
      rw [h1]
      simp only [normalizeVersionL]
      rw [if_neg (by decide : ¬ ('0' : Char) = 'r'), if_neg (by simp only [Bool.not_eq_true]; exact hall)]
    · by_cases hd : ((c :: cs).all isDigitCh) = true
      · have h1 : normalizeVersionL (c :: cs) = '0' :: '.' :: ((c :: cs) ++ ['.', '0']) := by
          simp [normalizeVersionL, hr, hd]
        have hall : (('0' :: '.' :: ((c :: cs) ++ ['.', '0'])).all isDigitCh) = false := by
          simp [List.all_cons, isDigitCh_dot]
        rw [h1]
        simp only [normalizeVersionL]
        rw [if_neg (by decide : ¬ ('0' : Char) = 'r'), if_neg (by simp only [Bool.not_eq_true]; exact hall)]
      · have h1 : normalizeVersionL (c :: cs) = c :: cs := by
          simp [normalizeVersionL, hr, hd]
        rw [h1, h1]

theorem isGE_triple_iff (a1 a2 a3 b1 b2 b3 : Nat) :
    (isGreaterOrEqual [some a1, some a2, some a3] [some b1, some b2, some b3] = true)
      ↔ lexLe (b1, b2, b3) (a1, a2, a3) := by
  have e : isGreaterOrEqual [some a1, some a2, some a3] [some b1, some b2, some b3]
      = (if b1 < a1 then true else if a1 < b1 then false
         else if b2 < a2 then true else if a2 < b2 then false
         else if b3 < a3 then true else if a3 < b3 then false else true) := by
    simp only [isGreaterOrEqual, List.get?, jsGtC, jsLtC]
    simp [decide_eq_true_eq]
  rw [e]
  unfold lexLe
  split_ifs <;> simp <;> omega

theorem isLE_triple_iff (a1 a2 a3 b1 b2 b3 : Nat) :
    (isLessOrEqual [some a1, some a2, some a3] [some b1, some b2, some b3] = true)
      ↔ lexLe (a1, a2, a3) (b1, b2, b3) := by
  have e : isLessOrEqual [some a1, some a2, some a3] [some b1, some b2, some b3]
      = (if a1 < b1 then true else if b1 < a1 then false
         else if a2 < b2 then true else if b2 < a2 then false
         else if a3 < b3 then true else if b3 < a3 then false else true) := by
    simp only [isLessOrEqual, List.get?, jsGtC, jsLtC]
    simp [decide_eq_true_eq]
  rw [e]
  unfold lexLe
  split_ifs <;> simp <;> omega

/-- C9: version normalization is idempotent — for every input string `x`,
`normalizeVersion (normalizeVersion x) = normalizeVersion x`; in particular
the r-prefixed token `"r128"` and the bare-number token `"128"` both map to
`"0.128.0"`, which is itself a fixed point of the function. -/
theorem normalizeVersion_idempotent :
    (∀ x : String, normalizeVersion (normalizeVersion x) = normalizeVersion x)
    ∧ normalizeVersion "r128" = "0.128.0"
    ∧ normalizeVersion "128" = "0.128.0"
    ∧ normalizeVersion "0.128.0" = "0.128.0" := by
  refine ⟨?_, by decide, by decide, by decide⟩
  intro x
  show (⟨normalizeVersionL (normalizeVersionL x.data)⟩ : String) = ⟨normalizeVersionL x.data⟩
  rw [normalizeVersionL_idem]

/-- C8: range-check boundaries — `isVersionInRange "0.81.0" "0.81.0"
"0.132.2"` is true, `isVersionInRange "0.80.9" ...` is false, and
`isVersionInRange "r128" ...` is true because `"r128"` normalizes to
`"0.128.0"`; moreover, on versions whose normalized forms split into three
plain number components, the check is exactly the inclusive component-wise
lexicographic comparison on both ends. -/
theorem isVersionInRange_boundaries :
    isVersionInRange "0.81.0" "0.81.0" "0.132.2" = true
    ∧ isVersionInRange "0.80.9" "0.81.0" "0.132.2" = false
    ∧ isVersionInRange "r128" "0.81.0" "0.132.2" = true
    ∧ normalizeVersion "r128" = "0.128.0"
    ∧ (∀ v lo hi : String, ∀ a b c : Nat × Nat × Nat,
        versionComponents v = tripleComponents a →
        versionComponents lo = tripleComponents b →
        versionComponents hi = tripleComponents c →
        (isVersionInRange v lo hi = true ↔ (lexLe b a ∧ lexLe a c))) := by
  refine ⟨by decide, by decide, by decide, by decide, ?_⟩
  intro v lo hi a b c hv hlo hhi
  obtain ⟨a1, a2, a3⟩ := a
  obtain ⟨b1, b2, b3⟩ := b
  obtain ⟨c1, c2, c3⟩ := c
  unfold isVersionInRange
  rw [hv, hlo, hhi]
  unfold tripleComponents
  rw [Bool.and_eq_true]
  rw [isGE_triple_iff, isLE_triple_iff]

/-- Witness for C8: the general lexicographic conjunct applied to the
concrete version `"r110"` and the documented range. -/
theorem isVersionInRange_boundaries_witness :
    isVersionInRange "r110" "0.81.0" "0.132.2" = true := by
  have h := isVersionInRange_boundaries.2.2.2.2 "r110" "0.81.0" "0.132.2"
    (0, 110, 0) (0, 81, 0) (0, 132, 2) (by decide) (by decide) (by decide)
  exact h.mpr (by decide)

/-! ## Compatibility profile (viewer-legacy.js lines 37-44, viewer-module.js
lines 82-89)

Both Render Host entry points read `revision = parseInt(THREE.REVISION, 10)
|| 0` — `THREE.REVISION` is a decimal digit string such as `"162"`, so the
parsed revision is modelled as a natural number — and derive the same three
profile flags from it. -/

structure ViewerConfig where
  useDepthProperty : Bool
  useManualCenter : Bool
  useManualBoxSize : Bool
  deriving DecidableEq, Repr

/-- The `config` object built by the legacy (UMD) entry point
`viewer/viewer-legacy.js`: `useDepthProperty = revision >= 162`,
`useManualCenter = revision < 81`, `useManualBoxSize = revision < 81`. -/
def legacyConfig (revision : Nat) : ViewerConfig :=
  { useDepthProperty := decide (162 ≤ revision)
    useManualCenter := decide (revision < 81)
    useManualBoxSize := decide (revision < 81) }

/-- The `config` object built by the ES-module entry point
`viewer/viewer-module.js` (same three formulas). -/
def moduleConfig (revision : Nat) : ViewerConfig :=
  { useDepthProperty := decide (162 ≤ revision)
    useManualCenter := decide (revision < 81)
    useManualBoxSize := decide (revision < 81) }

/-- The name of the `TextGeometry` option that carries the extrusion value,
as chosen by `createTextGeometry` in viewer-core.js (lines 562-566):
`geometryOptions.depth` when `appConfig.useDepthProperty`, otherwise
`geometryOptions.height`. -/
def geometryDepthField (cfg : ViewerConfig) : String :=
  if cfg.useDepthProperty then "depth" else "height"

/-- C3: compatibility profile thresholds — for every revision, both entry
points derive the depth option name exactly when the revision is at least
162 (else the height name), and set the two manual flags exactly when the
revision is below 81; the boundary revisions 161/162 flip only the depth
field, the boundary revisions 80/81 flip only the two manual flags, the
`r74` profile is fully manual with the height name, and the `0.170.0`
module profile is non-manual with the depth name. -/
theorem compatibilityProfile_thresholds :
    (∀ r : Nat, moduleConfig r = legacyConfig r)
    ∧ (∀ r : Nat, geometryDepthField (legacyConfig r)
        = if 162 ≤ r then "depth" else "height")
    ∧ (∀ r : Nat, (legacyConfig r).useManualCenter = decide (r < 81))
    ∧ (∀ r : Nat, (legacyConfig r).useManualBoxSize = decide (r < 81))
    ∧ legacyConfig 161 = ⟨false, false, false⟩
    ∧ legacyConfig 162 = ⟨true, false, false⟩
    ∧ legacyConfig 80 = ⟨false, true, true⟩
    ∧ legacyConfig 81 = ⟨false, false, false⟩
    ∧ (legacyConfig 74 = ⟨false, true, true⟩
        ∧ geometryDepthField (legacyConfig 74) = "height")
    ∧ ((moduleConfig 170).useManualCenter = false
        ∧ geometryDepthField (moduleConfig 170) = "depth") := by
  refine ⟨fun r => rfl, fun r => ?_, fun r => rfl, fun r => rfl,
    by decide, by decide, by decide, by decide, by decide, by decide⟩
  by_cases h : 162 ≤ r
  · simp [geometryDepthField, legacyConfig, h]
  · simp [geometryDepthField, legacyConfig, h]

/-! ## Bootstrap-document generation (three-versioner.js lines 127-299)

The generated documents are modelled structurally: `classicDoc m a` stands
for the HTML string `_buildHtmlTemplate(m, a)` builds (one core script tag
for `m` plus one script tag per addon URL in `a`, then the
`viewer/viewer-legacy.js` entry script); `moduleDoc u b` stands for the
import-map document `get_html_module` builds (an importmap binding `three`
to `u` and `three/addons/` to `b`, then the `viewer/viewer-module.js` entry
script); `infoPage t e d` stands for the self-contained explanatory page
`_buildInfoPageTemplate({title: t, explanation: e, details: d})` builds.
Every branch of the source returns one of these complete standalone
documents; none of them throws. -/

inductive BootstrapDoc where
  | infoPage (title explanation details : String)
  | classicDoc (mainScriptUrl : String) (addonScripts : List String)
  | moduleDoc (threeUrl addonBasePath : String)
  deriving DecidableEq, Repr

/-- Character class `[0-9r.]` of the version-capture group in
`_extractVersion`'s regular expression. -/
def isVerChar (c : Char) : Bool := isDigitCh c || c = 'r' || c = '.'

/-- Matching `([0-9r.]+[0-9])` greedily at the head of `l`: take the maximal
run of `[0-9r.]` characters, backtrack over trailing non-digits so the match
ends in a digit, and require at least two characters in total. -/
def matchVersionRun (l : List Char) : Option (List Char) :=
  let run := l.takeWhile isVerChar
  let trimmed := (run.reverse.dropWhile (fun c => !(isDigitCh c))).reverse
  if 2 ≤ trimmed.length then some trimmed else none

/-- One attempt of `/three(?:@|\.js\/)([0-9r.]+[0-9])/` at a fixed start
position: the literal `three` followed by `@` or by `.js/`, then the
version-run capture. -/
def tryMatchAt (l : List Char) : Option (List Char) :=
  if l.take 6 = ('t' :: 'h' :: 'r' :: 'e' :: 'e' :: '@' :: []) then
    matchVersionRun (l.drop 6)
  else if l.take 9 = ('t' :: 'h' :: 'r' :: 'e' :: 'e' :: '.' :: 'j' :: 's' :: '/' :: []) then
    matchVersionRun (l.drop 9)
  else none

/-- Regex search: try every start position left to right, first full match
wins. -/
def findVersion : List Char → Option (List Char)
  | [] => none
  | c :: cs =>
    match tryMatchAt (c :: cs) with
    | some v => some v
    | none => findVersion cs

/-- `_extractVersion` (three-versioner.js lines 60-64): `null` for a falsy
URL or when the pattern does not match, the captured version token
otherwise. -/
def extractVersion (url : String) : Option String :=
  if url.isEmpty then none
  else (findVersion url.data).map fun l => (⟨l⟩ : String)

/-- JavaScript `String.prototype.includes`: `sub` occurs contiguously in the
second argument. -/
def listIncludes (sub : List Char) : List Char → Bool
  | [] => sub.isEmpty
  | c :: t => sub.isPrefixOf (c :: t) || listIncludes sub t

/-- `versionUrl.includes("module")` (three-versioner.js line 155). -/
def hasModuleSubstr (url : String) : Bool :=
  listIncludes ("module".data) url.data

/-- `_getAddonBasePath` (lines 171-177). -/
def getAddonBasePath (versionUrl : String) : String :=
  let version := extractVersion versionUrl
  let normalizedVersion := normalizeVersion (version.getD "latest")
  "https://cdn.jsdelivr.net/npm/three@" ++ normalizedVersion ++ "/examples/jsm/"

/-- `get_html_module` (lines 186-211): the import map binds `three` to the
asset URL and `three/addons/` to the version-matched jsDelivr base path. -/
def get_html_module (versionUrl : String) : BootstrapDoc :=
  BootstrapDoc.moduleDoc versionUrl (getAddonBasePath versionUrl)

/-- The `${extractedVersion}` interpolation: JavaScript renders `null` as
the string `"null"`. -/
def jsInterp : Option String → String
  | some s => s
  | none => "null"

/-- `${extractedVersion || 'N/A'}`. -/
def orNA : Option String → String
  | some s => if s = "" then "N/A" else s
  | none => "N/A"

/-- `get_html_legacy` (three-versioner.js lines 213-253), branch for branch:
too-old info page, two bundled-classic ranges, the classic-plus-addons
range, and the modern fallback info page.  `_isVersionInRange` receives the
raw extraction result; `_normalizeVersion` maps `null` and `""` alike to
`"0.0.0"`, so a failed extraction is modelled by the empty string. -/
def get_html_legacy (versionUrl : String) : BootstrapDoc :=
  let ev := extractVersion versionUrl
  let evs := ev.getD ""
  if isVersionInRange evs "0.0.0" "0.73.9" then
    BootstrapDoc.infoPage ("Version Not Supported (" ++ orNA ev ++ ")")
      ("Three.js version " ++ jsInterp ev ++
        " is too old. Due to major changes in the core Geometry class around r74, versions prior to this are not supported for 3D text rendering in this editor.")
      ""
  else if isVersionInRange evs "0.74.0" "0.80.9" then
    BootstrapDoc.classicDoc versionUrl []
  else if isVersionInRange evs "0.81.0" "0.132.2" then
    BootstrapDoc.classicDoc versionUrl []
  else if isVersionInRange evs "0.133.0" "0.147.0" then
    let normalizedVersion := normalizeVersion evs
    let jsdelivrBase :=
      "https://cdn.jsdelivr.net/npm/three@" ++ normalizedVersion ++ "/examples/js/"
    BootstrapDoc.classicDoc versionUrl
      [jsdelivrBase ++ "loaders/FontLoader.js", jsdelivrBase ++ "geometries/TextGeometry.js"]
  else
    let normalizedVersion := normalizeVersion (ev.getD "0.148.0")
    BootstrapDoc.infoPage ("Version Incompatibility (" ++ normalizedVersion ++ ")")
      "Starting with version r148, Three.js stopped publishing key addons like FontLoader and TextGeometry as classic UMD scripts. To use 3D text functionality with this version, you must use a JavaScript Module (ESM) file by selecting a \".module.js\" asset."
      versionUrl

/-- `_generateIframeHtml` (lines 153-162). -/
def generateIframeHtml (versionUrl : String) : BootstrapDoc :=
  if hasModuleSubstr versionUrl then get_html_module versionUrl
  else get_html_legacy versionUrl

/-- C4 fails as stated: the classic asset URL for version `0.80.10` carries
a version inside `[0.74.0, 0.132.2]` under the generator's own inclusive
range comparison, yet the generator emits the modern-incompatibility info
page for it instead of a single-core-script document, because the two
hardcoded classic ranges `[0.74.0, 0.80.9]` and `[0.81.0, 0.132.2]` leave
the patch levels `0.80.10` and above uncovered. -/
theorem generateIframeHtml_gap_counterexample :
    hasModuleSubstr "https://cdn.jsdelivr.net/npm/three@0.80.10/build/three.js" = false
    ∧ extractVersion "https://cdn.jsdelivr.net/npm/three@0.80.10/build/three.js"
        = some "0.80.10"
    ∧ isVersionInRange "0.80.10" "0.74.0" "0.132.2" = true
    ∧ generateIframeHtml "https://cdn.jsdelivr.net/npm/three@0.80.10/build/three.js"
        = BootstrapDoc.infoPage "Version Incompatibility (0.80.10)"
            "Starting with version r148, Three.js stopped publishing key addons like FontLoader and TextGeometry as classic UMD scripts. To use 3D text functionality with this version, you must use a JavaScript Module (ESM) file by selecting a \".module.js\" asset."
            "https://cdn.jsdelivr.net/npm/three@0.80.10/build/three.js" :=
  ⟨by decide, rfl, by decide, rfl⟩

/-- C4 (amended): bootstrap generation is total by construction and
branch-correct for the ranges the source actually tests — classic assets
whose extracted version lies in `[0.74.0, 0.80.9]` or in
`[0.81.0, 0.132.2]` (not the full interval `[0.74.0, 0.132.2]`: the gap
`0.80.10+` falls through to the info page) get a single core script tag,
versions in `[0.133.0, 0.147.0]` get core plus the two separately-hosted
classic addon scripts from a version-matched CDN path, versions below
`0.74.0` get a non-crashing explanatory info page, every remaining classic
asset (including `0.148.0` and newer) gets a non-crashing explanatory info
page, and module assets get an import-map document mapping the bare module
name to the asset URL and the addon namespace to a version-matched base
path. -/
theorem generateIframeHtml_branches (url : String) :
    (hasModuleSubstr url = true →
      generateIframeHtml url = BootstrapDoc.moduleDoc url (getAddonBasePath url))
    ∧ (hasModuleSubstr url = false →
        (isVersionInRange ((extractVersion url).getD "") "0.0.0" "0.73.9" = true →
          generateIframeHtml url
            = BootstrapDoc.infoPage
                ("Version Not Supported (" ++ orNA (extractVersion url) ++ ")")
                ("Three.js version " ++ jsInterp (extractVersion url) ++
                  " is too old. Due to major changes in the core Geometry class around r74, versions prior to this are not supported for 3D text rendering in this editor.")
                "")
        ∧ (isVersionInRange ((extractVersion url).getD "") "0.0.0" "0.73.9" = false →
            isVersionInRange ((extractVersion url).getD "") "0.74.0" "0.80.9" = true →
            generateIframeHtml url = BootstrapDoc.classicDoc url [])
        ∧ (isVersionInRange ((extractVersion url).getD "") "0.0.0" "0.73.9" = false →
            isVersionInRange ((extractVersion url).getD "") "0.74.0" "0.80.9" = false →
            isVersionInRange ((extractVersion url).getD "") "0.81.0" "0.132.2" = true →
            generateIframeHtml url = BootstrapDoc.classicDoc url [])
        ∧ (isVersionInRange ((extractVersion url).getD "") "0.0.0" "0.73.9" = false →
            isVersionInRange ((extractVersion url).getD "") "0.74.0" "0.80.9" = false →
            isVersionInRange ((extractVersion url).getD "") "0.81.0" "0.132.2" = false →
            isVersionInRange ((extractVersion url).getD "") "0.133.0" "0.147.0" = true →
            generateIframeHtml url
              = BootstrapDoc.classicDoc url
                  ["https://cdn.jsdelivr.net/npm/three@" ++
                     normalizeVersion ((extractVersion url).getD "") ++
                     "/examples/js/loaders/FontLoader.js",
                   "https://cdn.jsdelivr.net/npm/three@" ++
                     normalizeVersion ((extractVersion url).getD "") ++
                     "/examples/js/geometries/TextGeometry.js"])
        ∧ (isVersionInRange ((extractVersion url).getD "") "0.0.0" "0.73.9" = false →
            isVersionInRange ((extractVersion url).getD "") "0.74.0" "0.80.9" = false →
            isVersionInRange ((extractVersion url).getD "") "0.81.0" "0.132.2" = false →
            isVersionInRange ((extractVersion url).getD "") "0.133.0" "0.147.0" = false →
            generateIframeHtml url
              = BootstrapDoc.infoPage
                  ("Version Incompatibility (" ++
                    normalizeVersion ((extractVersion url).getD "0.148.0") ++ ")")
                  "Starting with version r148, Three.js stopped publishing key addons like FontLoader and TextGeometry as classic UMD scripts. To use 3D text functionality with this version, you must use a JavaScript Module (ESM) file by selecting a \".module.js\" asset."
                  url)) := by
  constructor
  · intro h
    simp [generateIframeHtml, h, get_html_module]
  · intro h
    refine ⟨fun h1 => ?_, fun h1 h2 => ?_, fun h1 h2 h3 => ?_,
      fun h1 h2 h3 h4 => ?_, fun h1 h2 h3 h4 => ?_⟩ <;>
      simp [generateIframeHtml, get_html_legacy, h, h1]
    · simp [h2]
    · simp [h2, h3]
    · simp [h2, h3, h4, String.append_assoc]
    · simp [h2, h3, h4]

/-- Witness for C4 (amended): the classic-plus-addons branch evaluated at
the concrete 0.137.0 classic asset URL. -/
theorem generateIframeHtml_branches_witness :
    generateIframeHtml "https://cdn.jsdelivr.net/npm/three@0.137.0/build/three.min.js"
      = BootstrapDoc.classicDoc
          "https://cdn.jsdelivr.net/npm/three@0.137.0/build/three.min.js"
          ["https://cdn.jsdelivr.net/npm/three@0.137.0/examples/js/loaders/FontLoader.js",
           "https://cdn.jsdelivr.net/npm/three@0.137.0/examples/js/geometries/TextGeometry.js"] := by
  have h :=
    (generateIframeHtml_branches
      "https://cdn.jsdelivr.net/npm/three@0.137.0/build/three.min.js").2
      (by decide)
  have h4 := h.2.2.2.1 (by decide) (by decide) (by decide) (by decide)
  rw [h4]
  rfl

/-! ## Render Host (viewer-core.js)

Scene coordinates are rationals.  A `Mesh` stands for the live `textMesh`
(its identifier plus the bounding box of its centered geometry, the only
geometry attribute the host logic reads); a `Helper` stands for the live
`boundingBoxHelper`.  `pivotChildren` is the child list of the `pivotGroup`
scene node, in insertion order, and `disposed` is a ghost list recording the
identifiers whose geometry and material have been explicitly disposed.
Identifiers are handed out from the counter `nextId`. -/

structure Vec3 where
  x : ℚ
  y : ℚ
  z : ℚ
  deriving DecidableEq, Repr

structure EulerQ where
  x : ℚ
  y : ℚ
  z : ℚ
  deriving DecidableEq, Repr

structure Transform where
  position : Vec3
  rotation : EulerQ
  deriving DecidableEq, Repr

structure Box3 where
  min : Vec3
  max : Vec3
  deriving DecidableEq, Repr

/-- `Box3.getCenter` of the underlying library: `(min + max) * 0.5`. -/
def boxGetCenter (b : Box3) : Vec3 :=
  ⟨(b.min.x + b.max.x) / 2, (b.min.y + b.max.y) / 2, (b.min.z + b.max.z) / 2⟩

/-- The manual replacement used for revisions below 81:
`center.addVectors(min, max).multiplyScalar(0.5)` — the same arithmetic. -/
def boxManualCenter (b : Box3) : Vec3 :=
  ⟨(b.min.x + b.max.x) / 2, (b.min.y + b.max.y) / 2, (b.min.z + b.max.z) / 2⟩

/-- `geometry.translate(v)` acting on the (recomputed) bounding box. -/
def translateBox (b : Box3) (v : Vec3) : Box3 :=
  ⟨⟨b.min.x + v.x, b.min.y + v.y, b.min.z + v.z⟩,
   ⟨b.max.x + v.x, b.max.y + v.y, b.max.z + v.z⟩⟩

structure Mesh where
  id : Nat
  bbox : Box3
  deriving DecidableEq, Repr

structure Helper where
  id : Nat
  center : Vec3
  deriving DecidableEq, Repr

inductive SceneNode where
  | meshNode (id : Nat)
  | helperNode (id : Nat)
  deriving DecidableEq, Repr

/-- The constructors stored in `materialMap` (viewer-core.js lines 375-380).
`THREE.MeshBasicMaterial` is the value of both the `Basic` and the
`Wireframe` keys. -/
inductive MaterialCtor where
  | meshNormal
  | meshBasic
  | meshLambert
  | meshPhong
  | meshStandard
  | meshPhysical
  | meshToon
  deriving DecidableEq, Repr

/-- `materialMap` as the insertion-ordered key/value list of the source
object literal. -/
def materialMapEntries : List (String × MaterialCtor) :=
  [("Normal", .meshNormal), ("Basic", .meshBasic), ("Lambert", .meshLambert),
   ("Phong", .meshPhong), ("Standard", .meshStandard), ("Physical", .meshPhysical),
   ("Toon", .meshToon), ("Wireframe", .meshBasic)]

/-- `materialMap[materialName]` — `none` models `undefined`. -/
def materialMapGet (name : String) : Option MaterialCtor :=
  (materialMapEntries.find? fun p => p.1 = name).map Prod.snd

/-- `Object.keys(materialMap).find(key => materialMap[key] ===
currentMaterialConstructor) || 'Phong'` (viewer-core.js line 878): the first
key, in insertion order, whose constructor is the given one. -/
def findMaterialName (ctor : MaterialCtor) : String :=
  ((materialMapEntries.find? fun p => p.2 = ctor).map Prod.fst).getD "Phong"

structure JsError where
  message : String
  stack : Option String
  deriving DecidableEq, Repr

/-- `String.prototype.toLowerCase`, character-wise. -/
def jsToLower (s : String) : String := ⟨s.data.map Char.toLower⟩

/-- `isThreeJsError` (viewer-core.js lines 913-917): false without a stack;
otherwise the lowercased stack contains `three.min.js`, `three.module.js`
or plain `three`. -/
def isThreeJsError (e : JsError) : Bool :=
  match e.stack with
  | none => false
  | some st =>
    let stack := jsToLower st
    listIncludes ("three.min.js".data) stack.data
      || listIncludes ("three.module.js".data) stack.data
      || listIncludes ("three".data) stack.data

/-- Opaque font JSON handed over by the Orchestrator. -/
structure FontData where
  id : Nat
  deriving DecidableEq, Repr

/-- Opaque parsed `THREE.Font` object. -/
structure Font where
  id : Nat
  deriving DecidableEq, Repr

/-- The collaborators the Render Host receives by injection, plus the parts
of the underlying library whose numeric output is transcendental and
therefore abstracted: `fontParser` is the injected parser (it may throw),
`textGeometry` stands for `new TextGeometry(text, options)` followed by
`computeBoundingBox()` and returns the raw bounding box — the only geometry
attribute the host reads — as a function of the parsed font, the text and
the `is3D` flag (which fixes the extrusion value; the option *name* that
carries it is `geometryDepthField appConfig`); `lookAtRotation` is the
rotation `camera.lookAt(target)` produces, and `frameCamera` is the camera
transform `frameObject` computes from the mesh bounding box, the pivot
transform and the old camera (a fov/aspect tangent computation).
`localStack` is the stack an `Error` constructed inside viewer-core itself
carries. -/
structure Env where
  appConfig : ViewerConfig
  fontParser : FontData → Except JsError Font
  textGeometry : Font → String → Bool → Except JsError Box3
  lookAtRotation : Vec3 → Vec3 → EulerQ
  frameCamera : Box3 → Transform → Transform → Transform
  localStack : Option String

/-- Payload of the `update` command. -/
structure UpdateArgs where
  fontData : Option FontData
  text : String
  is3D : Bool
  shouldFrame : Bool
  shouldResetPosition : Bool
  fontHasChanged : Bool
  deriving DecidableEq, Repr

/-- Payload of the `restoreState` command: the merged ViewerState snapshot
(Orchestrator-owned fields plus the Host-reported transforms). -/
structure RestorePayload where
  currentColor : String
  currentAlpha : ℚ
  currentMaterialName : String
  gridVisible : Bool
  rotationEnabled : Bool
  panEnabled : Bool
  zoomEnabled : Bool
  rotateObjectEnabled : Bool
  moveObjectEnabled : Bool
  rotateCameraEnabled : Bool
  cameraState : Option Transform
  pivotState : Option Transform
  text : String
  is3D : Bool
  deriving DecidableEq, Repr

/-- The snapshot `setWireframeMode` stores in `savedViewState`
(viewer-core.js line 862). -/
structure SavedView where
  cameraPos : Vec3
  cameraRot : EulerQ
  pivotPos : Vec3
  pivotRot : EulerQ
  rotationEnabled : Bool
  panEnabled : Bool
  zoomEnabled : Bool
  rotateCameraEnabled : Bool
  gridVisible : Bool
  is3D : Bool
  rotateObjectEnabled : Bool
  moveObjectEnabled : Bool
  currentMaterialConstructor : MaterialCtor
  verticalAlign : String
  deriving DecidableEq, Repr

/-- Messages the Host posts to the Bridge. -/
inductive OutMsg where
  | ready
  | viewerStateResponse (cameraState pivotState : Transform) (payload : Nat)
  | requestFontDataForRestore
  | reportError (ty message : String)
  deriving DecidableEq, Repr

structure HostState where
  textMesh : Option Mesh
  boundingBoxHelper : Option Helper
  pivotChildren : List SceneNode
  camera : Transform
  pivot : Transform
  panEnabled : Bool
  zoomEnabled : Bool
  is3D : Bool
  gridVisible : Bool
  rotationEnabled : Bool
  rotateObjectEnabled : Bool
  moveObjectEnabled : Bool
  rotateCameraEnabled : Bool
  isBoundingBoxVisible : Bool
  currentMaterialConstructor : MaterialCtor
  isWireframe : Bool
  currentColor : String
  currentAlpha : ℚ
  currentTheme : String
  savedViewState : Option SavedView
  pendingStateRestore : Option RestorePayload
  currentFontData : Option FontData
  currentText : String
  isFirstRender : Bool
  disposed : List Nat
  nextId : Nat
  deriving DecidableEq, Repr

def VERTICAL_ALIGN_MODE : String := "baseline"

def SHOW_BOUNDING_BOX_IN_WIREFRAME : Bool := true

/-- `reportErrorToParent` (viewer-core.js lines 902-905): the posted
`reportError` payload tags the error `"threejs"` or `"generic"` via
`isThreeJsError` (the `logData` detail is not modelled). -/
def reportErrorMsg (e : JsError) : OutMsg :=
  OutMsg.reportError (if isThreeJsError e then "threejs" else "generic") e.message

/-- `setColor` (viewer-core.js lines 587-595).  The live material's
color/opacity mutation has no further observable effect in the model. -/
def setColor (s : HostState) (color : String) (alpha : ℚ) : HostState :=
  { s with currentColor := color, currentAlpha := alpha }

/-- `setMaterial` (viewer-core.js lines 597-606): look the constructor up
(defaulting to `MeshPhongMaterial`), set `isWireframe` from the name, and
swap the live mesh's material (the swap disposes the old material; the
material object itself carries no further observable state here). -/
def setMaterial (s : HostState) (materialName : String) : HostState :=
  { s with
    currentMaterialConstructor := (materialMapGet materialName).getD MaterialCtor.meshPhong,
    isWireframe := materialName == "Wireframe" }

/-- `toggleRotation` (line 648). -/
def toggleRotation (s : HostState) (enabled : Bool) : HostState :=
  { s with rotationEnabled := enabled }

/-- `toggleGrid` (line 649): the flag and the grid helper's visibility move
together, so one field suffices. -/
def toggleGrid (s : HostState) (visible : Bool) : HostState :=
  { s with gridVisible := visible }

/-- `updateTheme` (lines 651-657): scene background and helper color carry
no further observable state beyond the theme name. -/
def updateTheme (s : HostState) (theme : String) : HostState :=
  { s with currentTheme := theme }

/-- `setMouseState` (lines 781-787). -/
def setMouseState (s : HostState)
    (pan zoom rotateObject moveObject rotateCamera : Bool) : HostState :=
  { s with panEnabled := pan, zoomEnabled := zoom, rotateObjectEnabled := rotateObject,
           moveObjectEnabled := moveObject, rotateCameraEnabled := rotateCamera }

/-- `resetView` (lines 608-616): camera to `(0, 0.7, 2.5)` looking at the
origin, pivot transform zeroed. -/
def resetView (env : Env) (s : HostState) : HostState :=
  let cameraPos : Vec3 := ⟨0, 7/10, 5/2⟩
  { s with camera := ⟨cameraPos, env.lookAtRotation cameraPos ⟨0, 0, 0⟩⟩,
           pivot := ⟨⟨0, 0, 0⟩, ⟨0, 0, 0⟩⟩ }

/-- First half of `updateBoundingBoxHelper` (viewer-core.js lines 670-677):
tear the old helper down — remove it from its parent, dispose its geometry
and material. -/
def removeBBHelper (s : HostState) : HostState :=
  match s.boundingBoxHelper with
  | some h =>
    { s with pivotChildren := s.pivotChildren.erase (SceneNode.helperNode h.id),
             disposed := h.id :: s.disposed,
             boundingBoxHelper := none }
  | none => s

/-- Second half of `updateBoundingBoxHelper` (lines 679-716): rebuild only
when a mesh is given, the box is visible, and the wireframe gate allows it.
The helper is positioned at the center of the mesh geometry's bounding box
(the `getSize`/manual-subtraction choice only feeds the helper's own
geometry and is not otherwise observable). -/
def buildBBHelper (env : Env) (s : HostState) (mesh : Option Mesh) : HostState :=
  match mesh with
  | none => s
  | some m =>
    if s.isBoundingBoxVisible = false then s
    else if s.isWireframe && !SHOW_BOUNDING_BOX_IN_WIREFRAME then s
    else
      let box := m.bbox
      let center :=
        if env.appConfig.useManualCenter then boxManualCenter box else boxGetCenter box
      let h : Helper := ⟨s.nextId, center⟩
      { s with boundingBoxHelper := some h,
               nextId := s.nextId + 1,
               pivotChildren := s.pivotChildren ++ [SceneNode.helperNode h.id] }

/-- `updateBoundingBoxHelper` (viewer-core.js lines 669-717). -/
def updateBoundingBoxHelper (env : Env) (s : HostState) (mesh : Option Mesh) : HostState :=
  buildBBHelper env (removeBBHelper s) mesh

/-- `toggleBoundingBox` (lines 659-662). -/
def toggleBoundingBox (env : Env) (s : HostState) (visible : Bool) : HostState :=
  let s := { s with isBoundingBoxVisible := visible }
  updateBoundingBoxHelper env s (if s.isBoundingBoxVisible then s.textMesh else none)

/-- `createTextGeometry` (viewer-core.js lines 550-585): build the raw
geometry, compute its bounding box, and translate the geometry by minus its
center (computed manually below revision 81, via `getCenter` otherwise —
the same arithmetic).  The geometry's bounding box is recomputed by the
translate, so the returned box is the raw box shifted to the origin. -/
def createTextGeometry (env : Env) (font : Font) (text : String) (is3Dmode : Bool) :
    Except JsError Box3 :=
  match env.textGeometry font text is3Dmode with
  | .error e => .error e
  | .ok raw =>
    let center :=
      if env.appConfig.useManualCenter then boxManualCenter raw else boxGetCenter raw
    .ok (translateBox raw ⟨-center.x, -center.y, -center.z⟩)

/-- `pivotGroup.remove(textMesh); textMesh.geometry.dispose();
textMesh.material.dispose(); textMesh = null` (lines 477-482). -/
def disposeTextMesh (s : HostState) : HostState :=
  match s.textMesh with
  | none => s
  | some m =>
    { s with pivotChildren := s.pivotChildren.erase (SceneNode.meshNode m.id),
             disposed := m.id :: s.disposed,
             textMesh := none }

/-- `currentFontData = args.fontData` under `fontHasChanged` plus
`currentText = args.text` (viewer-core.js lines 469-474, after the
sync-error guard has passed). -/
def uvRecordArgs (s : HostState) (args : UpdateArgs) : HostState :=
  let s := if args.fontHasChanged then { s with currentFontData := args.fontData } else s
  { s with currentText := args.text }

/-- The baseline pivot height `updateViewer` computes on a position reset
or first render (viewer-core.js lines 508-523): `center.y - min.y` of the
centered geometry bounding box, the center taken manually below revision 81
and via `getCenter` otherwise (the same arithmetic). -/
def baselineY (cfg : ViewerConfig) (geometry : Box3) : ℚ :=
  (if cfg.useManualCenter then boxManualCenter geometry else boxGetCenter geometry).y
    - geometry.min.y

/-- `textMesh = new THREE.Mesh(geometry, material); pivotGroup.add(textMesh)`
(viewer-core.js lines 496-497). -/
def uvAttachMesh (s : HostState) (geometry : Box3) : HostState :=
  { s with textMesh := some ⟨s.nextId, geometry⟩, nextId := s.nextId + 1,
           pivotChildren := s.pivotChildren ++ [SceneNode.meshNode s.nextId] }

/-- The pivot placement of `updateViewer` (lines 499-527): on a position
reset or the first render, put the pivot's Y at the baseline height of the
new geometry (`VERTICAL_ALIGN_MODE` is the constant `"baseline"`; the dead
`"center"` arm is kept) and clear the first-render flag, else keep the
current Y; the X/Z components are zeroed on reset and kept otherwise; a
reset also zeroes the pivot rotation. -/
def uvPositionPivot (env : Env) (s : HostState) (args : UpdateArgs) (geometry : Box3) :
    HostState :=
  let userPosX := if args.shouldResetPosition then (0 : ℚ) else s.pivot.position.x
  let userPosY := if args.shouldResetPosition then (0 : ℚ) else s.pivot.position.y
  let userPosZ := if args.shouldResetPosition then (0 : ℚ) else s.pivot.position.z
  let s :=
    if args.shouldResetPosition then
      { s with pivot := { s.pivot with rotation := ⟨0, 0, 0⟩ } }
    else s
  let placed :=
    if args.shouldResetPosition || s.isFirstRender then
      ({ s with isFirstRender := false },
       if VERTICAL_ALIGN_MODE = "baseline" then baselineY env.appConfig geometry else 0)
    else (s, userPosY)
  { placed.1 with
    pivot := { placed.1.pivot with position := ⟨userPosX, placed.2, userPosZ⟩ } }

/-- `if (shouldFrame) frameObject()` (lines 529-531); the tangent
computation of `frameObject` lives in `Env.frameCamera`. -/
def uvFrame (env : Env) (s : HostState) (args : UpdateArgs) (mesh : Mesh) : HostState :=
  if args.shouldFrame then
    { s with camera := env.frameCamera mesh.bbox s.pivot s.camera }
  else s

/-- The happy-path tail of `updateViewer` (lines 493-533): attach the new
mesh, place the pivot, optionally frame the camera, and rebuild the
bounding-box helper. -/
def uvPlace (env : Env) (s : HostState) (args : UpdateArgs) (geometry : Box3) : HostState :=
  let mesh : Mesh := ⟨s.nextId, geometry⟩
  updateBoundingBoxHelper env
    (uvFrame env (uvPositionPivot env (uvAttachMesh s geometry) args geometry) args mesh)
    (some mesh)

/-- The geometry-building tail of `updateViewer` (lines 488-534): `is3D` is
set (line 488) before the two fallible injected calls, so both error
branches keep that mutation; an exception from the parser or the geometry
constructor is caught by the surrounding `try`/`catch` and reported. -/
def uvBuild (env : Env) (s : HostState) (args : UpdateArgs) (fd : FontData) :
    HostState × List OutMsg :=
  match env.fontParser fd with
  | .error e => ({ s with is3D := args.is3D }, [reportErrorMsg e])
  | .ok font =>
    match createTextGeometry env font args.text args.is3D with
    | .error e => ({ s with is3D := args.is3D }, [reportErrorMsg e])
    | .ok geometry => (uvPlace env { s with is3D := args.is3D } args geometry, [])

/-- `updateViewer` (viewer-core.js lines 467-539).  The body's `try`/`catch`
reports any exception from the injected parser or geometry constructor as a
`reportError` message instead of propagating it; in the embedding those two
calls are the fallible ones, and the state already mutated before the throw
is kept, exactly as in the source. -/
def updateViewer (env : Env) (s : HostState) (args : UpdateArgs) :
    HostState × List OutMsg :=
  if args.fontHasChanged && args.fontData.isNone then
    (s, [reportErrorMsg ⟨"Sync Error: fontHasChanged but no fontData.", env.localStack⟩])
  else
    let s := updateBoundingBoxHelper env (disposeTextMesh (uvRecordArgs s args)) none
    if args.text = "" then (s, [])
    else
      match s.currentFontData with
      | none => (s, [])
      | some fd => uvBuild env s args fd

/-- `saveCameraAndPivot` (lines 823-829). -/
def saveCameraAndPivot (s : HostState) (payload : Nat) : HostState × List OutMsg :=
  (s, [OutMsg.viewerStateResponse s.camera s.pivot payload])

/-- `applyRestoredState` (viewer-core.js lines 831-849). -/
def applyRestoredState (s : HostState) (st : RestorePayload) :
    HostState × List OutMsg :=
  let s := setColor s st.currentColor st.currentAlpha
  let s := setMaterial s st.currentMaterialName
  let s := toggleGrid s st.gridVisible
  let s := toggleRotation s st.rotationEnabled
  let s := setMouseState s st.panEnabled st.zoomEnabled st.rotateObjectEnabled
    st.moveObjectEnabled st.rotateCameraEnabled
  let s :=
    match st.cameraState with
    | some c => { s with camera := c }
    | none => s
  let s :=
    match st.pivotState with
    | some p => { s with pivot := p }
    | none => s
  if st.text = "" then (s, [])
  else ({ s with pendingStateRestore := some st }, [OutMsg.requestFontDataForRestore])

/-- `handleFontDataForRestore` (viewer-core.js lines 851-856). -/
def handleFontDataForRestore (env : Env) (s : HostState) (fontData : Option FontData) :
    HostState × List OutMsg :=
  match s.pendingStateRestore with
  | none => (s, [])
  | some pst =>
    let r := updateViewer env s
      { fontData := fontData, text := pst.text, is3D := pst.is3D,
        shouldFrame := false, shouldResetPosition := false, fontHasChanged := true }
    ({ r.1 with pendingStateRestore := none }, r.2)

/-- The snapshot activation stores in `savedViewState` (viewer-core.js
line 862). -/
def wireframeSnapshot (s : HostState) : SavedView :=
  { cameraPos := s.camera.position, cameraRot := s.camera.rotation,
    pivotPos := s.pivot.position, pivotRot := s.pivot.rotation,
    rotationEnabled := s.rotationEnabled, panEnabled := s.panEnabled,
    zoomEnabled := s.zoomEnabled, rotateCameraEnabled := s.rotateCameraEnabled,
    gridVisible := s.gridVisible, is3D := s.is3D,
    rotateObjectEnabled := s.rotateObjectEnabled,
    moveObjectEnabled := s.moveObjectEnabled,
    currentMaterialConstructor := s.currentMaterialConstructor,
    verticalAlign := VERTICAL_ALIGN_MODE }

/-- `setWireframeMode` (viewer-core.js lines 858-893).  Activation
snapshots the full view state, re-renders flat with a position reset,
forces the wireframe interaction flags and material, and schedules
`frameObject` on the next animation frame (applied separately by
`frameTick`); deactivation restores dimensionality and constructor,
re-renders, re-applies the material found by reverse constructor lookup,
and copies every snapshotted transform and flag back. -/
def setWireframeMode (env : Env) (s : HostState) (active : Bool) :
    HostState × List OutMsg :=
  if active then
    let s := { s with savedViewState := some (wireframeSnapshot s) }
    let r := updateViewer env s
      { fontData := none, fontHasChanged := false, text := s.currentText,
        is3D := false, shouldFrame := false, shouldResetPosition := true }
    let s := { r.1 with rotationEnabled := false, panEnabled := true, zoomEnabled := true,
                        rotateCameraEnabled := false, rotateObjectEnabled := false,
                        moveObjectEnabled := false }
    let s := toggleGrid s false
    let s := setMaterial s "Wireframe"
    (s, r.2)
  else
    match s.savedViewState with
    | none => (s, [])
    | some sv =>
      let s := { s with is3D := sv.is3D,
                        currentMaterialConstructor := sv.currentMaterialConstructor }
      let r := updateViewer env s
        { fontData := none, fontHasChanged := false, text := s.currentText,
          is3D := sv.is3D, shouldFrame := false, shouldResetPosition := false }
      let s := r.1
      let materialName := findMaterialName s.currentMaterialConstructor
      let s := setMaterial s materialName
      let s := { s with camera := ⟨sv.cameraPos, sv.cameraRot⟩,
                        pivot := ⟨sv.pivotPos, sv.pivotRot⟩ }
      let s := { s with rotationEnabled := sv.rotationEnabled, panEnabled := sv.panEnabled,
                        zoomEnabled := sv.zoomEnabled,
                        rotateCameraEnabled := sv.rotateCameraEnabled }
      let s := toggleGrid s sv.gridVisible
      let s := { s with rotateObjectEnabled := sv.rotateObjectEnabled,
                        moveObjectEnabled := sv.moveObjectEnabled,
                        savedViewState := none }
      (s, r.2)

/-- The `requestAnimationFrame(frameObject)` scheduled by wireframe
activation, executed at the next frame: `frameObject` (lines 623-647)
returns early without a mesh and otherwise repositions the camera from the
mesh bounding box (the tangent computation lives in `Env.frameCamera`). -/
def frameTick (env : Env) (s : HostState) : HostState :=
  match s.textMesh with
  | none => s
  | some m => { s with camera := env.frameCamera m.bbox s.pivot s.camera }

/-- The commands of `setupMessageListener` (viewer-core.js lines 796-821). -/
inductive RenderCommand where
  | update (args : UpdateArgs)
  | setColor (color : String) (alpha : ℚ)
  | setMaterial (material : String)
  | toggleRotation (enabled : Bool)
  | toggleGrid (visible : Bool)
  | toggleBoundingBox (visible : Bool)
  | resetView
  | updateTheme (theme : String)
  | setMouseState (pan zoom rotateObject moveObject rotateCamera : Bool)
  | setWireframe (active : Bool)
  | restoreState (st : RestorePayload)
  | requestViewerState (payload : Nat)
  | fontDataForRestore (fontData : Option FontData)
  deriving DecidableEq, Repr

/-- The message dispatch of `setupMessageListener`.  Its `try`/`catch`
reports any exception to the Bridge instead of re-throwing; in the
embedding every handler is total (the fallible injected calls are already
caught inside `updateViewer`), so dispatch is total as in the source. -/
def processCommand (env : Env) (s : HostState) : RenderCommand → HostState × List OutMsg
  | .update args => updateViewer env s args
  | .setColor color alpha => (setColor s color alpha, [])
  | .setMaterial material => (setMaterial s material, [])
  | .toggleRotation enabled => (toggleRotation s enabled, [])
  | .toggleGrid visible => (toggleGrid s visible, [])
  | .toggleBoundingBox visible => (toggleBoundingBox env s visible, [])
  | .resetView => (resetView env s, [])
  | .updateTheme theme => (updateTheme s theme, [])
  | .setMouseState pan zoom rotateObject moveObject rotateCamera =>
      (setMouseState s pan zoom rotateObject moveObject rotateCamera, [])
  | .setWireframe active => setWireframeMode env s active
  | .restoreState st => applyRestoredState s st
  | .requestViewerState payload => saveCameraAndPivot s payload
  | .fontDataForRestore fontData => handleFontDataForRestore env s fontData

/-- The Host state right after `initScene` finishes and the one-time
`ready` message is posted (viewer-core.js lines 367-427 and the module
state initializers at lines 330-349). -/
def initState (env : Env) : HostState :=
  let cameraPos : Vec3 := ⟨0, 7/10, 5/2⟩
  { textMesh := none
    boundingBoxHelper := none
    pivotChildren := []
    camera := ⟨cameraPos, env.lookAtRotation cameraPos ⟨0, 0, 0⟩⟩
    pivot := ⟨⟨0, 0, 0⟩, ⟨0, 0, 0⟩⟩
    panEnabled := false
    zoomEnabled := true
    is3D := true
    gridVisible := true
    rotationEnabled := true
    rotateObjectEnabled := true
    moveObjectEnabled := false
    rotateCameraEnabled := false
    isBoundingBoxVisible := false
    currentMaterialConstructor := MaterialCtor.meshPhong
    isWireframe := false
    currentColor := "#0077fe"
    currentAlpha := 1
    currentTheme := "dark"
    savedViewState := none
    pendingStateRestore := none
    currentFontData := none
    currentText := ""
    isFirstRender := true
    disposed := []
    nextId := 0 }

/-! ## Bridge (docs/js/viewer-bridge.js)

`iframePresent` models `iframe && iframe.contentWindow`.  The results of
the bridge operations carry the list of command names posted to the viewer
iframe and the list of console warnings, in order. -/

structure BridgeState where
  isViewerReady : Bool
  completeStateToRestore : Option RestorePayload
  pendingReloadUrl : Option String
  iframePresent : Bool
  deriving DecidableEq, Repr

/-- `sendViewerMessage` (viewer-bridge.js lines 97-106): post the command
only when the iframe exists and the ready flag is set; otherwise, when the
flag is not set, log a warning; in both non-posting branches nothing is
queued and the bridge state is unchanged. -/
def sendViewerMessage (b : BridgeState) (command : String) :
    BridgeState × List String × List String :=
  if b.iframePresent && b.isViewerReady then (b, [command], [])
  else if !b.isViewerReady then
    (b, [], ["[BRIDGE] Viewer not ready. Command " ++ command ++ " was blocked."])
  else (b, [], [])

/-- The typed command wrappers of the Bridge public API (viewer-bridge.js
lines 117-203); each one delegates to `sendViewerMessage` with the command
name shown. -/
inductive BridgeCommand where
  | update
  | setColor
  | setMaterial
  | toggleRotation
  | toggleGrid
  | resetView
  | updateTheme
  | setMouseState
  | setWireframe
  | toggleBoundingBox
  | restoreState
  | fontDataForRestore
  deriving DecidableEq, Repr

def commandName : BridgeCommand → String
  | .update => "update"
  | .setColor => "setColor"
  | .setMaterial => "setMaterial"
  | .toggleRotation => "toggleRotation"
  | .toggleGrid => "toggleGrid"
  | .resetView => "resetView"
  | .updateTheme => "updateTheme"
  | .setMouseState => "setMouseState"
  | .setWireframe => "setWireframe"
  | .toggleBoundingBox => "toggleBoundingBox"
  | .restoreState => "restoreState"
  | .fontDataForRestore => "fontDataForRestore"

/-- A typed command call routed through `sendViewerMessage`. -/
def sendCommand (b : BridgeState) (c : BridgeCommand) :
    BridgeState × List String × List String :=
  sendViewerMessage b (commandName c)

/-- `requestAndReload` (viewer-bridge.js lines 109-115): store the pending
reload content, then — with no readiness check — post `requestViewerState`
whenever the iframe exists. -/
def requestAndReload (b : BridgeState) (newContent : String) :
    BridgeState × List String :=
  let b := { b with pendingReloadUrl := some newContent }
  if b.iframePresent then (b, ["requestViewerState"]) else (b, [])

/-- `reloadViewerWithVersion` (viewer-bridge.js lines 220-230): reset the
ready flag for the new content (the `srcdoc` swap itself is outside the
model). -/
def reloadViewerWithVersion (b : BridgeState) (generatedHtml : String) : BridgeState :=
  { b with isViewerReady := false }

/-- C6: readiness gating — every command issued through the Bridge's typed
command API while `isViewerReady` is false posts nothing to the Host, emits
exactly the blocked-command warning, and leaves the bridge state unchanged
(so nothing is queued and nothing can be applied later); and a reload
resets `isViewerReady` to false, reopening that window. -/
theorem bridge_readiness_gating :
    (∀ (b : BridgeState) (c : BridgeCommand), b.isViewerReady = false →
      sendCommand b c
        = (b, [], ["[BRIDGE] Viewer not ready. Command " ++ commandName c ++ " was blocked."]))
    ∧ (∀ (b : BridgeState) (html : String),
        (reloadViewerWithVersion b html).isViewerReady = false) := by
  constructor
  · intro b c h
    simp [sendCommand, sendViewerMessage, h]
  · intro b html
    rfl

/-- Witness for C6: a concrete not-ready bridge drops a concrete `update`
command with the warning. -/
theorem bridge_readiness_gating_witness :
    sendCommand ⟨false, none, none, true⟩ BridgeCommand.update
      = (⟨false, none, none, true⟩, [],
         ["[BRIDGE] Viewer not ready. Command update was blocked."]) := by
  have h := bridge_readiness_gating.1 ⟨false, none, none, true⟩ BridgeCommand.update rfl
  simpa using h

/-- C10: `requestAndReload` is not subject to the readiness gate — whenever
the iframe exists it stores the pending content and posts
`requestViewerState` unconditionally, including when `isViewerReady` is
false, while every command routed through `sendViewerMessage` is blocked in
that same situation. -/
theorem requestAndReload_unconditional :
    (∀ (b : BridgeState) (url : String), b.iframePresent = true →
      requestAndReload b url
        = ({ b with pendingReloadUrl := some url }, ["requestViewerState"]))
    ∧ (∀ (b : BridgeState) (c : BridgeCommand),
        b.iframePresent = true → b.isViewerReady = false →
        (sendCommand b c).2.1 = []) := by
  constructor
  · intro b url h
    simp [requestAndReload, h]
  · intro b c hp hr
    simp [sendCommand, sendViewerMessage, hr]

/-- Witness for C10: a concrete never-ready bridge still posts
`requestViewerState` from `requestAndReload`. -/
theorem requestAndReload_unconditional_witness :
    requestAndReload ⟨false, none, none, true⟩ "html"
      = (⟨false, none, some "html", true⟩, ["requestViewerState"]) := by
  have h := requestAndReload_unconditional.1 ⟨false, none, none, true⟩ "html" rfl
  simpa using h

/-! ## Frame lemmas: fields `updateViewer` never writes -/

/-- The tuple of host-state fields that `updateViewer` never writes. -/
def untouchedByUpdate (s : HostState) :=
  (s.savedViewState, s.currentMaterialConstructor, s.isWireframe,
   s.isBoundingBoxVisible, s.gridVisible, s.rotationEnabled, s.panEnabled,
   s.zoomEnabled, s.rotateObjectEnabled, s.moveObjectEnabled,
   s.rotateCameraEnabled, s.currentColor, s.currentAlpha,
   s.pendingStateRestore, s.currentTheme)

theorem untouched_removeBBHelper (s : HostState) :
    untouchedByUpdate (removeBBHelper s) = untouchedByUpdate s := by
  unfold removeBBHelper
  split <;> rfl

theorem untouched_buildBBHelper (env : Env) (s : HostState) (m : Option Mesh) :
    untouchedByUpdate (buildBBHelper env s m) = untouchedByUpdate s := by
  unfold buildBBHelper
  repeat' split
  all_goals rfl

theorem untouched_updateBBH (env : Env) (s : HostState) (m : Option Mesh) :
    untouchedByUpdate (updateBoundingBoxHelper env s m) = untouchedByUpdate s := by
  unfold updateBoundingBoxHelper
  rw [untouched_buildBBHelper, untouched_removeBBHelper]

theorem untouched_disposeTextMesh (s : HostState) :
    untouchedByUpdate (disposeTextMesh s) = untouchedByUpdate s := by
  unfold disposeTextMesh
  split <;> rfl

theorem untouched_uvRecordArgs (s : HostState) (args : UpdateArgs) :
    untouchedByUpdate (uvRecordArgs s args) = untouchedByUpdate s := by
  unfold uvRecordArgs
  dsimp only
  split <;> rfl

theorem untouched_uvAttachMesh (s : HostState) (g : Box3) :
    untouchedByUpdate (uvAttachMesh s g) = untouchedByUpdate s := rfl

theorem untouched_uvPositionPivot (env : Env) (s : HostState) (args : UpdateArgs) (g : Box3) :
    untouchedByUpdate (uvPositionPivot env s args g) = untouchedByUpdate s := by
  unfold uvPositionPivot
  dsimp only
  repeat' split
  all_goals rfl

theorem untouched_uvFrame (env : Env) (s : HostState) (args : UpdateArgs) (m : Mesh) :
    untouchedByUpdate (uvFrame env s args m) = untouchedByUpdate s := by
  unfold uvFrame
  split <;> rfl

theorem untouched_uvPlace (env : Env) (s : HostState) (args : UpdateArgs) (g : Box3) :
    untouchedByUpdate (uvPlace env s args g) = untouchedByUpdate s := by
  unfold uvPlace
  rw [untouched_updateBBH, untouched_uvFrame, untouched_uvPositionPivot,
    untouched_uvAttachMesh]

theorem untouched_uvBuild (env : Env) (s : HostState) (args : UpdateArgs) (fd : FontData) :
    untouchedByUpdate (uvBuild env s args fd).1 = untouchedByUpdate s := by
  unfold uvBuild
  repeat' split
  all_goals simp only [untouched_uvPlace]
  all_goals rfl

theorem updateViewer_untouched (env : Env) (s : HostState) (args : UpdateArgs) :
    untouchedByUpdate (updateViewer env s args).1 = untouchedByUpdate s := by
  unfold updateViewer
  dsimp only
  repeat' split
  all_goals
    simp only [untouched_uvBuild, untouched_updateBBH, untouched_disposeTextMesh,
      untouched_uvRecordArgs]

theorem currentText_removeBBHelper (s : HostState) :
    (removeBBHelper s).currentText = s.currentText := by
  unfold removeBBHelper
  split <;> rfl

theorem currentText_buildBBHelper (env : Env) (s : HostState) (m : Option Mesh) :
    (buildBBHelper env s m).currentText = s.currentText := by
  unfold buildBBHelper
  repeat' split
  all_goals rfl

theorem currentText_updateBBH (env : Env) (s : HostState) (m : Option Mesh) :
    (updateBoundingBoxHelper env s m).currentText = s.currentText := by
  unfold updateBoundingBoxHelper
  rw [currentText_buildBBHelper, currentText_removeBBHelper]

theorem currentText_disposeTextMesh (s : HostState) :
    (disposeTextMesh s).currentText = s.currentText := by
  unfold disposeTextMesh
  split <;> rfl

theorem currentText_uvRecordArgs (s : HostState) (args : UpdateArgs) :
    (uvRecordArgs s args).currentText = args.text := by
  unfold uvRecordArgs
  dsimp only

theorem currentText_uvPositionPivot (env : Env) (s : HostState) (args : UpdateArgs)
    (g : Box3) :
    (uvPositionPivot env s args g).currentText = s.currentText := by
  unfold uvPositionPivot
  dsimp only
  repeat' split
  all_goals rfl

theorem currentText_uvFrame (env : Env) (s : HostState) (args : UpdateArgs) (m : Mesh) :
    (uvFrame env s args m).currentText = s.currentText := by
  unfold uvFrame
  split <;> rfl

theorem currentText_uvPlace (env : Env) (s : HostState) (args : UpdateArgs) (g : Box3) :
    (uvPlace env s args g).currentText = s.currentText := by
  unfold uvPlace
  rw [currentText_updateBBH, currentText_uvFrame, currentText_uvPositionPivot]
  rfl

theorem currentText_uvBuild (env : Env) (s : HostState) (args : UpdateArgs) (fd : FontData) :
    (uvBuild env s args fd).1.currentText = s.currentText := by
  unfold uvBuild
  repeat' split
  all_goals simp only [currentText_uvPlace]

/-- `updateViewer` sets `currentText := args.text` unless the sync-error
guard fires (in which case nothing changes). -/
theorem updateViewer_currentText (env : Env) (s : HostState) (args : UpdateArgs)
    (h : args.text = s.currentText) :
    (updateViewer env s args).1.currentText = s.currentText := by
  unfold updateViewer
  dsimp only
  repeat' split
  all_goals
    simp only [currentText_uvBuild, currentText_updateBBH, currentText_disposeTextMesh,
      currentText_uvRecordArgs]
  all_goals exact h

theorem is3D_removeBBHelper (s : HostState) :
    (removeBBHelper s).is3D = s.is3D := by
  unfold removeBBHelper
  split <;> rfl

theorem is3D_buildBBHelper (env : Env) (s : HostState) (m : Option Mesh) :
    (buildBBHelper env s m).is3D = s.is3D := by
  unfold buildBBHelper
  repeat' split
  all_goals rfl

theorem is3D_updateBBH (env : Env) (s : HostState) (m : Option Mesh) :
    (updateBoundingBoxHelper env s m).is3D = s.is3D := by
  unfold updateBoundingBoxHelper
  rw [is3D_buildBBHelper, is3D_removeBBHelper]

theorem is3D_disposeTextMesh (s : HostState) :
    (disposeTextMesh s).is3D = s.is3D := by
  unfold disposeTextMesh
  split <;> rfl

theorem is3D_uvRecordArgs (s : HostState) (args : UpdateArgs) :
    (uvRecordArgs s args).is3D = s.is3D := by
  unfold uvRecordArgs
  dsimp only
  split <;> rfl

theorem is3D_uvPositionPivot (env : Env) (s : HostState) (args : UpdateArgs) (g : Box3) :
    (uvPositionPivot env s args g).is3D = s.is3D := by
  unfold uvPositionPivot
  dsimp only
  repeat' split
  all_goals rfl

theorem is3D_uvFrame (env : Env) (s : HostState) (args : UpdateArgs) (m : Mesh) :
    (uvFrame env s args m).is3D = s.is3D := by
  unfold uvFrame
  split <;> rfl

theorem is3D_uvPlace (env : Env) (s : HostState) (args : UpdateArgs) (g : Box3) :
    (uvPlace env s args g).is3D = s.is3D := by
  unfold uvPlace
  rw [is3D_updateBBH, is3D_uvFrame, is3D_uvPositionPivot]
  rfl

theorem is3D_uvBuild (env : Env) (s : HostState) (args : UpdateArgs) (fd : FontData) :
    (uvBuild env s args fd).1.is3D = args.is3D := by
  unfold uvBuild
  repeat' split
  all_goals simp only [is3D_uvPlace]

/-- `updateViewer` either leaves `is3D` alone (early returns) or sets it to
`args.is3D`; when the two coincide, `is3D` is preserved. -/
theorem updateViewer_is3D (env : Env) (s : HostState) (args : UpdateArgs)
    (h : args.is3D = s.is3D) :
    (updateViewer env s args).1.is3D = s.is3D := by
  unfold updateViewer
  dsimp only
  repeat' split
  all_goals
    simp only [is3D_uvBuild, is3D_updateBBH, is3D_disposeTextMesh, is3D_uvRecordArgs]
  all_goals exact h

theorem currentFontData_removeBBHelper (s : HostState) :
    (removeBBHelper s).currentFontData = s.currentFontData := by
  unfold removeBBHelper
  split <;> rfl

theorem currentFontData_buildBBHelper (env : Env) (s : HostState) (m : Option Mesh) :
    (buildBBHelper env s m).currentFontData = s.currentFontData := by
  unfold buildBBHelper
  repeat' split
  all_goals rfl

theorem currentFontData_disposeTextMesh (s : HostState) :
    (disposeTextMesh s).currentFontData = s.currentFontData := by
  unfold disposeTextMesh
  split <;> rfl

/-- After the record/teardown phase of `updateViewer`, the cached font data
is `args.fontData` when `fontHasChanged`, the previous cache otherwise. -/
theorem currentFontData_teardown (env : Env) (s : HostState) (args : UpdateArgs) :
    (updateBoundingBoxHelper env (disposeTextMesh (uvRecordArgs s args)) none).currentFontData
      = if args.fontHasChanged then args.fontData else s.currentFontData := by
  unfold updateBoundingBoxHelper
  rw [currentFontData_buildBBHelper, currentFontData_removeBBHelper,
    currentFontData_disposeTextMesh]
  unfold uvRecordArgs
  dsimp only
  split <;> rfl

/-! ## Concrete test environments used by witnesses and counterexamples -/

/-- A benign environment: profile of revision 158, parser and geometry
always succeed, the geometry bounding box is the unit-ish box
`[-1,1] × [-1,1] × {0}`, camera framing and look-at are inert. -/
def testEnv : Env :=
  { appConfig := legacyConfig 158
    fontParser := fun _ => Except.ok ⟨0⟩
    textGeometry := fun _ _ _ => Except.ok ⟨⟨-1, -1, 0⟩, ⟨1, 1, 0⟩⟩
    lookAtRotation := fun _ _ => ⟨0, 0, 0⟩
    frameCamera := fun _ _ c => c
    localStack := none }

/-- `testEnv` with a geometry constructor that throws an error whose stack
names `three.module.js` — a library-internal render error. -/
def errEnv : Env :=
  { testEnv with
    textGeometry := fun _ _ _ => Except.error ⟨"boom", some "at three.module.js:10:5"⟩ }

/-- C7 fails as stated: a library-internal exception thrown while building
geometry is caught and reported, but the `reportError` payload tags it
`"threejs"`, not `"library"` as the claim (and the spec's protocol table)
says. -/
theorem reportError_tag_counterexample :
    isThreeJsError ⟨"boom", some "at three.module.js:10:5"⟩ = true
    ∧ (processCommand errEnv { initState errEnv with currentFontData := some ⟨7⟩ }
        (RenderCommand.update
          { fontData := none, text := "A", is3D := true, shouldFrame := false,
            shouldResetPosition := false, fontHasChanged := false })).2
      = [OutMsg.reportError "threejs" "boom"]
    ∧ ("threejs" : String) ≠ "library" :=
  ⟨rfl, rfl, by decide⟩

/-- C7 (amended): every exception thrown while the `update` handler builds
geometry (from the injected font parser or the geometry constructor) is
caught at the top of the handler and reported to the Bridge as a
`reportError` event whose type field is `"generic"` for non-library errors
and `"threejs"` (not `"library"`) for library-internal ones, and the Host
neither re-throws nor terminates — processing any subsequent command from
the resulting state is defined. -/
theorem handler_error_containment (env : Env) (s : HostState) (args : UpdateArgs)
    (fd : FontData)
    (hguard : (args.fontHasChanged && args.fontData.isNone) = false)
    (htext : ¬ args.text = "")
    (hfd : (if args.fontHasChanged then args.fontData else s.currentFontData) = some fd) :
    (∀ e : JsError, env.fontParser fd = Except.error e →
      (processCommand env s (RenderCommand.update args)).2
        = [OutMsg.reportError (if isThreeJsError e then "threejs" else "generic") e.message])
    ∧ (∀ (f : Font) (e : JsError), env.fontParser fd = Except.ok f →
        env.textGeometry f args.text args.is3D = Except.error e →
        (processCommand env s (RenderCommand.update args)).2
          = [OutMsg.reportError (if isThreeJsError e then "threejs" else "generic") e.message])
    ∧ (∀ c : RenderCommand, ∃ s2 m2,
        processCommand env (processCommand env s (RenderCommand.update args)).1 c
          = (s2, m2)) := by
  have hmain : ∀ e : JsError,
      (env.fontParser fd = Except.error e
        ∨ ∃ f, env.fontParser fd = Except.ok f
            ∧ env.textGeometry f args.text args.is3D = Except.error e) →
      (processCommand env s (RenderCommand.update args)).2 = [reportErrorMsg e] := by
    intro e he
    show (updateViewer env s args).2 = _
    unfold updateViewer
    rw [hguard]
    dsimp only
    rw [if_neg htext]
    have hcur := currentFontData_teardown env s args
    rw [hfd] at hcur
    rw [hcur]
    dsimp only
    unfold uvBuild
    rcases he with he | ⟨f, hf, hg⟩
    · rw [he]
      rfl
    · rw [hf]
      dsimp only
      unfold createTextGeometry
      rw [hg]
      rfl
  refine ⟨fun e he => ?_, fun f e hf hg => ?_, fun c => ⟨_, _, rfl⟩⟩
  · exact hmain e (Or.inl he)
  · exact hmain e (Or.inr ⟨f, hf, hg⟩)

/-- Witness for C7 (amended): the generic branch — a parser failure whose
error has no stack — evaluated in a concrete environment. -/
theorem handler_error_containment_witness :
    (processCommand
      { testEnv with fontParser := fun _ => Except.error ⟨"bad font", none⟩ }
      { initState testEnv with currentFontData := some ⟨7⟩ }
      (RenderCommand.update
        { fontData := none, text := "A", is3D := true, shouldFrame := false,
          shouldResetPosition := false, fontHasChanged := false })).2
      = [OutMsg.reportError "generic" "bad font"] := by
  have h :=
    (handler_error_containment
      { testEnv with fontParser := fun _ => Except.error ⟨"bad font", none⟩ }
      { initState testEnv with currentFontData := some ⟨7⟩ }
      { fontData := none, text := "A", is3D := true, shouldFrame := false,
        shouldResetPosition := false, fontHasChanged := false }
      ⟨7⟩ rfl (by decide) rfl).1 ⟨"bad font", none⟩ rfl
  simpa using h

/-! ## Wireframe-mode symmetry (C2) -/

theorem updateViewer_savedViewState (env : Env) (s : HostState) (args : UpdateArgs) :
    (updateViewer env s args).1.savedViewState = s.savedViewState := by
  have h := updateViewer_untouched env s args
  simp only [untouchedByUpdate, Prod.mk.injEq] at h
  exact h.1

theorem updateViewer_ctor (env : Env) (s : HostState) (args : UpdateArgs) :
    (updateViewer env s args).1.currentMaterialConstructor
      = s.currentMaterialConstructor := by
  have h := updateViewer_untouched env s args
  simp only [untouchedByUpdate, Prod.mk.injEq] at h
  exact h.2.1

theorem updateViewer_pendingStateRestore (env : Env) (s : HostState) (args : UpdateArgs) :
    (updateViewer env s args).1.pendingStateRestore = s.pendingStateRestore := by
  have h := updateViewer_untouched env s args
  simp only [untouchedByUpdate, Prod.mk.injEq] at h
  exact h.2.2.2.2.2.2.2.2.2.2.2.2.2.1

theorem frameTick_savedViewState (env : Env) (s : HostState) :
    (frameTick env s).savedViewState = s.savedViewState := by
  unfold frameTick
  split <;> rfl

/-- Round trip of the reverse material lookup: every constructor's
recovered name maps back to that constructor, and the recovered name is
never `"Wireframe"` (for `MeshBasicMaterial` the `Basic` key is found
first). -/
theorem materialName_roundtrip (c : MaterialCtor) :
    materialMapGet (findMaterialName c) = some c
      ∧ (findMaterialName c == "Wireframe") = false := by
  cases c <;> exact ⟨rfl, rfl⟩

/-- The components of the Host state the wireframe-symmetry claim compares:
camera and pivot transforms, the eight toggle flags, and the current
material name.  The Host stores the material as a constructor plus the
`isWireframe` flag; the name of the current material is `"Wireframe"`
exactly when `isWireframe` is set (only `setMaterial("Wireframe")` sets
it), and otherwise the first `materialMap` key carrying the stored
constructor. -/
structure ObsState where
  camera : Transform
  pivot : Transform
  rotationEnabled : Bool
  panEnabled : Bool
  zoomEnabled : Bool
  rotateObjectEnabled : Bool
  moveObjectEnabled : Bool
  rotateCameraEnabled : Bool
  gridVisible : Bool
  is3D : Bool
  materialName : String
  deriving DecidableEq, Repr

def observe (s : HostState) : ObsState :=
  { camera := s.camera, pivot := s.pivot, rotationEnabled := s.rotationEnabled,
    panEnabled := s.panEnabled, zoomEnabled := s.zoomEnabled,
    rotateObjectEnabled := s.rotateObjectEnabled,
    moveObjectEnabled := s.moveObjectEnabled,
    rotateCameraEnabled := s.rotateCameraEnabled, gridVisible := s.gridVisible,
    is3D := s.is3D,
    materialName :=
      if s.isWireframe then "Wireframe"
      else findMaterialName s.currentMaterialConstructor }

/-- `setWireframeMode(true)` immediately followed by `setWireframeMode
(false)`, with the activation-scheduled `frameObject` animation frame
running in between (auto-rotation is paused by activation, so no other
scene mutation happens between the two commands). -/
def wireframeRoundTrip (env : Env) (s : HostState) : HostState :=
  (setWireframeMode env (frameTick env (setWireframeMode env s true).1) false).1

/-- What deactivation produces, given the stored snapshot: every observed
component comes back from the snapshot, and the material name is the
reverse lookup of the snapshotted constructor. -/
theorem deactivate_observe (env : Env) (t : HostState) (sv : SavedView)
    (h : t.savedViewState = some sv) :
    observe (setWireframeMode env t false).1
      = { camera := ⟨sv.cameraPos, sv.cameraRot⟩,
          pivot := ⟨sv.pivotPos, sv.pivotRot⟩,
          rotationEnabled := sv.rotationEnabled, panEnabled := sv.panEnabled,
          zoomEnabled := sv.zoomEnabled,
          rotateObjectEnabled := sv.rotateObjectEnabled,
          moveObjectEnabled := sv.moveObjectEnabled,
          rotateCameraEnabled := sv.rotateCameraEnabled,
          gridVisible := sv.gridVisible, is3D := sv.is3D,
          materialName := findMaterialName sv.currentMaterialConstructor } := by
  unfold setWireframeMode
  rw [if_neg (by decide : ¬ (false = true))]
  rw [h]
  dsimp only
  unfold observe setMaterial toggleGrid
  simp only [ObsState.mk.injEq, true_and]
  constructor
  · exact updateViewer_is3D env _ _ rfl
  · rw [updateViewer_ctor]
    rw [(materialName_roundtrip sv.currentMaterialConstructor).2]
    rw [if_neg (by decide : ¬ (false = true))]
    rw [(materialName_roundtrip sv.currentMaterialConstructor).1]
    rfl

/-- Activation stores exactly the pre-activation snapshot, and nothing in
the rest of activation or the scheduled frame callback overwrites it. -/
theorem activate_savedViewState (env : Env) (s : HostState) :
    (frameTick env (setWireframeMode env s true).1).savedViewState
      = some (wireframeSnapshot s) := by
  rw [frameTick_savedViewState]
  unfold setWireframeMode
  rw [if_pos rfl]
  unfold setMaterial toggleGrid
  dsimp only
  rw [updateViewer_savedViewState]

/-- C2 fails as stated: with the pre-activation material `"Wireframe"`
(a legal name from the protocol's material enum), activating and
immediately deactivating wireframe mode brings the material name back as
`"Basic"` — the reverse lookup from the stored constructor finds the
`Basic` key first, since both keys hold `MeshBasicMaterial` — so the
pre-activation state is not restored. -/
theorem wireframe_roundtrip_counterexample :
    (observe (setMaterial (initState testEnv) "Wireframe")).materialName = "Wireframe"
    ∧ (observe (wireframeRoundTrip testEnv
        (setMaterial (initState testEnv) "Wireframe"))).materialName = "Basic"
    ∧ ("Basic" : String) ≠ "Wireframe" :=
  ⟨rfl, rfl, by decide⟩

/-- C2 (amended): for every pre-activation Host state whose current
material is not the `Wireframe` material (`isWireframe = false`),
`setWireframeMode(true)` followed immediately by `setWireframeMode(false)`
restores a state equal to the original in camera and pivot transforms, all
eight toggle flags, and the material name; a pre-activation `"Wireframe"`
material is the one exception and comes back as `"Basic"` (same underlying
constructor). -/
theorem wireframe_roundtrip_amended (env : Env) (s : HostState)
    (hw : s.isWireframe = false) :
    observe (wireframeRoundTrip env s) = observe s := by
  unfold wireframeRoundTrip
  rw [deactivate_observe env _ _ (activate_savedViewState env s)]
  unfold observe wireframeSnapshot
  rw [hw]
  rfl

/-- Witness for C2 (amended): a concrete non-wireframe state — the initial
state, whose material is `Phong` — observed unchanged through the round
trip. -/
theorem wireframe_roundtrip_amended_witness :
    observe (wireframeRoundTrip testEnv (initState testEnv))
      = observe (initState testEnv) :=
  wireframe_roundtrip_amended testEnv (initState testEnv) rfl

/-! ## Reload round-trip (C1) -/

/-- `applyRestoredState` applies the snapshot's camera and pivot transforms
verbatim, requests font data exactly when the snapshot carries text, and
leaves the mesh, the first-render flag, the bounding-box visibility and the
cached font data of the receiving state alone. -/
theorem applyRestoredState_fields (s : HostState) (V : RestorePayload)
    (ct pt : Transform) (hc : V.cameraState = some ct) (hp : V.pivotState = some pt) :
    (applyRestoredState s V).1.camera = ct
    ∧ (applyRestoredState s V).1.pivot = pt
    ∧ (V.text = "" → (applyRestoredState s V).2 = []
        ∧ (applyRestoredState s V).1.pendingStateRestore = s.pendingStateRestore)
    ∧ (¬ V.text = "" → (applyRestoredState s V).2 = [OutMsg.requestFontDataForRestore]
        ∧ (applyRestoredState s V).1.pendingStateRestore = some V)
    ∧ (applyRestoredState s V).1.textMesh = s.textMesh
    ∧ (applyRestoredState s V).1.boundingBoxHelper = s.boundingBoxHelper
    ∧ (applyRestoredState s V).1.isFirstRender = s.isFirstRender
    ∧ (applyRestoredState s V).1.isBoundingBoxVisible = s.isBoundingBoxVisible
    ∧ (applyRestoredState s V).1.currentFontData = s.currentFontData := by
  unfold applyRestoredState setColor setMaterial toggleGrid toggleRotation setMouseState
  rw [hc, hp]
  dsimp only
  by_cases ht : V.text = ""
  · rw [if_pos ht]
    exact ⟨rfl, rfl, fun _ => ⟨rfl, rfl⟩, fun hn => absurd ht hn, rfl, rfl, rfl, rfl, rfl⟩
  · rw [if_neg ht]
    exact ⟨rfl, rfl, fun hz => absurd hz ht, fun _ => ⟨rfl, rfl⟩, rfl, rfl, rfl, rfl, rfl⟩

/-- On a first-render pass with `shouldResetPosition = false` and
`shouldFrame = false`, `uvPlace` keeps the camera, the pivot rotation and
the pivot X/Z, but overwrites the pivot Y with the baseline height of the
new geometry. -/
theorem camera_removeBBHelper (s : HostState) :
    (removeBBHelper s).camera = s.camera := by
  unfold removeBBHelper
  split <;> rfl

theorem camera_buildBBHelper (env : Env) (s : HostState) (m : Option Mesh) :
    (buildBBHelper env s m).camera = s.camera := by
  unfold buildBBHelper
  repeat' split
  all_goals rfl

theorem camera_updateBBH (env : Env) (s : HostState) (m : Option Mesh) :
    (updateBoundingBoxHelper env s m).camera = s.camera := by
  unfold updateBoundingBoxHelper
  rw [camera_buildBBHelper, camera_removeBBHelper]

theorem pivot_removeBBHelper (s : HostState) :
    (removeBBHelper s).pivot = s.pivot := by
  unfold removeBBHelper
  split <;> rfl

theorem pivot_buildBBHelper (env : Env) (s : HostState) (m : Option Mesh) :
    (buildBBHelper env s m).pivot = s.pivot := by
  unfold buildBBHelper
  repeat' split
  all_goals rfl

theorem pivot_updateBBH (env : Env) (s : HostState) (m : Option Mesh) :
    (updateBoundingBoxHelper env s m).pivot = s.pivot := by
  unfold updateBoundingBoxHelper
  rw [pivot_buildBBHelper, pivot_removeBBHelper]

theorem pivot_uvFrame (env : Env) (s : HostState) (args : UpdateArgs) (m : Mesh) :
    (uvFrame env s args m).pivot = s.pivot := by
  unfold uvFrame
  split <;> rfl

theorem uvFrame_noFrame (env : Env) (s : HostState) (args : UpdateArgs) (m : Mesh)
    (h : args.shouldFrame = false) :
    uvFrame env s args m = s := by
  unfold uvFrame
  rw [h]
  rw [if_neg (by decide : ¬ (false = true))]

theorem camera_uvPositionPivot (env : Env) (s : HostState) (args : UpdateArgs) (g : Box3) :
    (uvPositionPivot env s args g).camera = s.camera := by
  unfold uvPositionPivot
  dsimp only
  repeat' split
  all_goals rfl

/-- With `shouldResetPosition = false` on a first render, the pivot keeps
its X/Z and rotation but the Y is set to the baseline height. -/
theorem uvPositionPivot_firstRender (env : Env) (s : HostState) (args : UpdateArgs)
    (g : Box3) (h1 : args.shouldResetPosition = false) (h3 : s.isFirstRender = true) :
    (uvPositionPivot env s args g).pivot
      = ⟨⟨s.pivot.position.x, baselineY env.appConfig g, s.pivot.position.z⟩,
         s.pivot.rotation⟩ := by
  unfold uvPositionPivot
  dsimp only
  rw [h1]
  simp only [if_neg (show ¬ (false = true) by decide)]
  simp only [Bool.false_or]
  rw [h3]
  simp only [eq_self_iff_true, if_true]
  rw [if_pos (show VERTICAL_ALIGN_MODE = "baseline" from rfl)]

theorem uvPlace_firstRender (env : Env) (t : HostState) (args : UpdateArgs) (g : Box3)
    (h1 : args.shouldResetPosition = false) (h2 : args.shouldFrame = false)
    (h3 : t.isFirstRender = true) (h4 : t.isBoundingBoxVisible = false)
    (h5 : t.boundingBoxHelper = none) :
    (uvPlace env t args g).camera = t.camera
    ∧ (uvPlace env t args g).pivot.rotation = t.pivot.rotation
    ∧ (uvPlace env t args g).pivot.position.x = t.pivot.position.x
    ∧ (uvPlace env t args g).pivot.position.z = t.pivot.position.z
    ∧ (uvPlace env t args g).pivot.position.y = baselineY env.appConfig g := by
  unfold uvPlace
  rw [camera_updateBBH, pivot_updateBBH, uvFrame_noFrame env _ args _ h2]
  rw [camera_uvPositionPivot,
    uvPositionPivot_firstRender env (uvAttachMesh t g) args g h1 h3]
  exact ⟨rfl, rfl, rfl, rfl, rfl⟩

/-- The concrete snapshot used by the C1 counterexample: camera at
`(1, 2, 3)`, pivot at `(0, 5, 0)` with rotation `(0, 1, 0)`, text `"A"`. -/
def restoreV : RestorePayload :=
  { currentColor := "#ff0000", currentAlpha := 1, currentMaterialName := "Phong",
    gridVisible := true, rotationEnabled := false, panEnabled := false,
    zoomEnabled := true, rotateObjectEnabled := true, moveObjectEnabled := false,
    rotateCameraEnabled := false,
    cameraState := some ⟨⟨1, 2, 3⟩, ⟨0, 0, 0⟩⟩,
    pivotState := some ⟨⟨0, 5, 0⟩, ⟨0, 1, 0⟩⟩,
    text := "A", is3D := true }

/-- General transform accounting of the restore protocol on a fresh Host;
the claim theorem and the counterexample both read off this lemma. -/
theorem restoreRoundTrip_transforms (env : Env) (V : RestorePayload)
    (ct pt : Transform) (hc : V.cameraState = some ct) (hp : V.pivotState = some pt) :
    (applyRestoredState (initState env) V).1.camera = ct
    ∧ (applyRestoredState (initState env) V).1.pivot = pt
    ∧ (V.text = "" → (applyRestoredState (initState env) V).2 = [])
    ∧ (∀ (fd : FontData) (f : Font) (g : Box3),
        ¬ V.text = "" →
        env.fontParser fd = Except.ok f →
        createTextGeometry env f V.text V.is3D = Except.ok g →
        (handleFontDataForRestore env
            (applyRestoredState (initState env) V).1 (some fd)).1.camera = ct
        ∧ (handleFontDataForRestore env
            (applyRestoredState (initState env) V).1 (some fd)).1.pivot.rotation
          = pt.rotation
        ∧ (handleFontDataForRestore env
            (applyRestoredState (initState env) V).1 (some fd)).1.pivot.position.x
          = pt.position.x
        ∧ (handleFontDataForRestore env
            (applyRestoredState (initState env) V).1 (some fd)).1.pivot.position.z
          = pt.position.z
        ∧ (handleFontDataForRestore env
            (applyRestoredState (initState env) V).1 (some fd)).1.pivot.position.y
          = baselineY env.appConfig g) := by
  obtain ⟨h1, h2, h3, h4, htm, hbb, hfr, hbv, hcf⟩ :=
    applyRestoredState_fields (initState env) V ct pt hc hp
  refine ⟨h1, h2, fun hz => (h3 hz).1, ?_⟩
  intro fd f g htext hparse hgeom
  have hpend := (h4 htext).2
  generalize hs1 : (applyRestoredState (initState env) V).1 = t at h1 h2 htm hbb hfr hbv hcf hpend
  have htm2 : t.textMesh = none := htm
  have hbb2 : t.boundingBoxHelper = none := hbb
  have hfr2 : t.isFirstRender = true := hfr
  have hbv2 : t.isBoundingBoxVisible = false := hbv
  unfold handleFontDataForRestore
  rw [hpend]
  dsimp only
  unfold updateViewer
  dsimp only
  rw [if_neg htext]
  have hteardown :
      updateBoundingBoxHelper env
        (disposeTextMesh (uvRecordArgs t
          { fontData := some fd, text := V.text, is3D := V.is3D,
            shouldFrame := false, shouldResetPosition := false, fontHasChanged := true }))
        none
      = { t with currentFontData := some fd, currentText := V.text } := by
    unfold updateBoundingBoxHelper buildBBHelper removeBBHelper disposeTextMesh uvRecordArgs
    dsimp only
    rw [if_pos rfl]
    dsimp only
    rw [htm2, hbb2]
  rw [hteardown]
  dsimp only
  unfold uvBuild
  rw [hparse]
  dsimp only
  rw [hgeom]
  dsimp only
  have hP := uvPlace_firstRender env
    { t with currentFontData := some fd, currentText := V.text, is3D := V.is3D }
    { fontData := some fd, text := V.text, is3D := V.is3D,
      shouldFrame := false, shouldResetPosition := false, fontHasChanged := true }
    g rfl rfl hfr2 hbv2 hbb2
  exact ⟨hP.1.trans h1,
    hP.2.1.trans (congrArg Transform.rotation h2),
    hP.2.2.1.trans (congrArg (fun tr => tr.position.x) h2),
    hP.2.2.2.1.trans (congrArg (fun tr => tr.position.z) h2),
    hP.2.2.2.2⟩

/-- C1 fails as stated: deliver `restoreV` (pivot Y = 5, text present) to a
fresh Host right after `ready`, answer the font-data request, and the
completed restore leaves the pivot at Y = 1 — the first-render baseline
placement of the rebuilt geometry (`isFirstRender` is still true on a fresh
Host, so `updateViewer` recomputes the pivot height even though
`shouldResetPosition` is false) — while camera, pivot rotation and pivot
X/Z survive.  So one transform component is overwritten by the first-render
placement logic. -/
theorem restore_roundtrip_counterexample :
    (applyRestoredState (initState testEnv) restoreV).2
      = [OutMsg.requestFontDataForRestore]
    ∧ restoreV.pivotState = some ⟨⟨0, 5, 0⟩, ⟨0, 1, 0⟩⟩
    ∧ (handleFontDataForRestore testEnv
        (applyRestoredState (initState testEnv) restoreV).1 (some ⟨7⟩)).1.camera
      = ⟨⟨1, 2, 3⟩, ⟨0, 0, 0⟩⟩
    ∧ (handleFontDataForRestore testEnv
        (applyRestoredState (initState testEnv) restoreV).1 (some ⟨7⟩)).1.pivot.rotation
      = ⟨0, 1, 0⟩
    ∧ (handleFontDataForRestore testEnv
        (applyRestoredState (initState testEnv) restoreV).1 (some ⟨7⟩)).1.pivot.position.y
      = 1
    ∧ ((1 : ℚ) ≠ 5) := by
  have hfields := applyRestoredState_fields (initState testEnv) restoreV
    ⟨⟨1, 2, 3⟩, ⟨0, 0, 0⟩⟩ ⟨⟨0, 5, 0⟩, ⟨0, 1, 0⟩⟩ rfl rfl
  have hcore := restoreRoundTrip_transforms testEnv restoreV
    ⟨⟨1, 2, 3⟩, ⟨0, 0, 0⟩⟩ ⟨⟨0, 5, 0⟩, ⟨0, 1, 0⟩⟩ rfl rfl
  have hgeom : createTextGeometry testEnv ⟨0⟩ restoreV.text restoreV.is3D
      = Except.ok ⟨⟨-1, -1, 0⟩, ⟨1, 1, 0⟩⟩ := by
    unfold createTextGeometry testEnv
    dsimp only
    norm_num [legacyConfig, boxGetCenter, boxManualCenter, translateBox]
  have h4 := hcore.2.2.2 ⟨7⟩ ⟨0⟩ ⟨⟨-1, -1, 0⟩, ⟨1, 1, 0⟩⟩
    (by decide) rfl hgeom
  refine ⟨(hfields.2.2.2.1 (by decide)).1, rfl, h4.1, h4.2.1, ?_, by decide⟩
  rw [h4.2.2.2.2]
  norm_num [baselineY, testEnv, legacyConfig, boxGetCenter, boxManualCenter]

/-- C1 (amended): after `restoreState V` on a fresh Host right after
`ready`, the Host's camera and pivot transforms equal V's exactly; when V
carries text, the two-phase font-data fetch re-renders, and the completed
restore still has camera, pivot rotation and pivot X/Z equal to V's, but
the pivot Y is overwritten by the first-render baseline placement
(`center.y - min.y` of the rebuilt geometry) — it equals V's Y only by
coincidence. -/
theorem restore_roundtrip_amended (env : Env) (V : RestorePayload)
    (ct pt : Transform) (hc : V.cameraState = some ct) (hp : V.pivotState = some pt) :
    (applyRestoredState (initState env) V).1.camera = ct
    ∧ (applyRestoredState (initState env) V).1.pivot = pt
    ∧ (V.text = "" → (applyRestoredState (initState env) V).2 = [])
    ∧ (∀ (fd : FontData) (f : Font) (g : Box3),
        ¬ V.text = "" →
        env.fontParser fd = Except.ok f →
        createTextGeometry env f V.text V.is3D = Except.ok g →
        (handleFontDataForRestore env
            (applyRestoredState (initState env) V).1 (some fd)).1.camera = ct
        ∧ (handleFontDataForRestore env
            (applyRestoredState (initState env) V).1 (some fd)).1.pivot.rotation
          = pt.rotation
        ∧ (handleFontDataForRestore env
            (applyRestoredState (initState env) V).1 (some fd)).1.pivot.position.x
          = pt.position.x
        ∧ (handleFontDataForRestore env
            (applyRestoredState (initState env) V).1 (some fd)).1.pivot.position.z
          = pt.position.z
        ∧ (handleFontDataForRestore env
            (applyRestoredState (initState env) V).1 (some fd)).1.pivot.position.y
          = baselineY env.appConfig g) :=
  restoreRoundTrip_transforms env V ct pt hc hp

/-- Witness for C1 (amended): the text-free branch — a snapshot with no
text restored into a fresh Host leaves camera and pivot exactly at the
snapshot's transforms. -/
theorem restore_roundtrip_amended_witness :
    (applyRestoredState (initState testEnv) { restoreV with text := "" }).1.camera
      = ⟨⟨1, 2, 3⟩, ⟨0, 0, 0⟩⟩
    ∧ (applyRestoredState (initState testEnv) { restoreV with text := "" }).1.pivot
      = ⟨⟨0, 5, 0⟩, ⟨0, 1, 0⟩⟩
    ∧ (applyRestoredState (initState testEnv) { restoreV with text := "" }).2 = [] := by
  have h := restore_roundtrip_amended testEnv { restoreV with text := "" }
    ⟨⟨1, 2, 3⟩, ⟨0, 0, 0⟩⟩ ⟨⟨0, 5, 0⟩, ⟨0, 1, 0⟩⟩ rfl rfl
  exact ⟨h.1, h.2.1, h.2.2.1 rfl⟩

/-! ## At-most-one mesh invariant (C5) -/

/-- Number of TextMesh children of the pivot group. -/
def meshCount (l : List SceneNode) : Nat :=
  (l.filter fun n => match n with | .meshNode _ => true | .helperNode _ => false).length

/-- Number of BoundingBoxHelper children of the pivot group. -/
def helperCount (l : List SceneNode) : Nat :=
  (l.filter fun n => match n with | .meshNode _ => false | .helperNode _ => true).length

/-- The canonical child list of the pivot group: the current text mesh (if
any) followed by the current bounding-box helper (if any). -/
def canonChildren : Option Mesh → Option Helper → List SceneNode
  | none, none => []
  | some m, none => [SceneNode.meshNode m.id]
  | none, some h => [SceneNode.helperNode h.id]
  | some m, some h => [SceneNode.meshNode m.id, SceneNode.helperNode h.id]

/-- The structural scene invariant of the Render Host: the pivot's children
are exactly the current mesh and helper, and every live identifier is below
the fresh-identifier counter. -/
def Inv (s : HostState) : Prop :=
  s.pivotChildren = canonChildren s.textMesh s.boundingBoxHelper
  ∧ (∀ m : Mesh, s.textMesh = some m → m.id < s.nextId)
  ∧ (∀ h : Helper, s.boundingBoxHelper = some h → h.id < s.nextId)

theorem meshCount_canon (tm : Option Mesh) (bh : Option Helper) :
    meshCount (canonChildren tm bh) ≤ 1 := by
  cases tm <;> cases bh <;> simp [canonChildren, meshCount, List.filter]

theorem helperCount_canon (tm : Option Mesh) (bh : Option Helper) :
    helperCount (canonChildren tm bh) ≤ 1 := by
  cases tm <;> cases bh <;> simp [canonChildren, helperCount, List.filter]

theorem meshCount_canon_none (bh : Option Helper) :
    meshCount (canonChildren none bh) = 0 := by
  cases bh <;> simp [canonChildren, meshCount, List.filter]

theorem meshNode_not_mem_canon (i : Nat) (tm : Option Mesh) (bh : Option Helper)
    (h : ∀ m : Mesh, tm = some m → m.id ≠ i) :
    SceneNode.meshNode i ∉ canonChildren tm bh := by
  intro hmem
  cases htm : tm with
  | none =>
    cases hbh : bh with
    | none => rw [htm, hbh] at hmem; simp [canonChildren] at hmem
    | some hh => rw [htm, hbh] at hmem; simp [canonChildren] at hmem
  | some m =>
    have hne := h m htm
    cases hbh : bh with
    | none =>
      rw [htm, hbh] at hmem
      simp [canonChildren] at hmem
      exact hne hmem.symm
    | some hh =>
      rw [htm, hbh] at hmem
      simp [canonChildren] at hmem
      exact hne hmem.symm

/-- The four scene fields the placement and framing phases never touch. -/
def sceneFields (s : HostState) :=
  (s.pivotChildren, s.textMesh, s.boundingBoxHelper, s.nextId, s.disposed)

theorem sceneFields_uvRecordArgs (s : HostState) (args : UpdateArgs) :
    sceneFields (uvRecordArgs s args) = sceneFields s := by
  unfold uvRecordArgs
  dsimp only
  split <;> rfl

theorem sceneFields_uvPositionPivot (env : Env) (s : HostState) (args : UpdateArgs)
    (g : Box3) :
    sceneFields (uvPositionPivot env s args g) = sceneFields s := by
  unfold uvPositionPivot
  dsimp only
  repeat' split
  all_goals rfl

theorem sceneFields_uvFrame (env : Env) (s : HostState) (args : UpdateArgs) (m : Mesh) :
    sceneFields (uvFrame env s args m) = sceneFields s := by
  unfold uvFrame
  split <;> rfl

theorem Inv_of_sceneFields (s s' : HostState) (h : sceneFields s' = sceneFields s)
    (hi : Inv s) : Inv s' := by
  simp only [sceneFields, Prod.mk.injEq] at h
  obtain ⟨h1, h2, h3, h4, h5⟩ := h
  obtain ⟨i1, i2, i3⟩ := hi
  exact ⟨h1 ▸ h2 ▸ h3 ▸ i1, h2 ▸ h4 ▸ i2, h3 ▸ h4 ▸ i3⟩

theorem inv_disposeTextMesh (s : HostState) (h : Inv s) :
    Inv (disposeTextMesh s)
    ∧ (disposeTextMesh s).textMesh = none
    ∧ (disposeTextMesh s).boundingBoxHelper = s.boundingBoxHelper
    ∧ (disposeTextMesh s).nextId = s.nextId
    ∧ (∀ m : Mesh, s.textMesh = some m → m.id ∈ (disposeTextMesh s).disposed)
    ∧ (∃ l, (disposeTextMesh s).disposed = l ++ s.disposed) := by
  obtain ⟨hc, hm, hh⟩ := h
  cases htm : s.textMesh with
  | none =>
    have he : disposeTextMesh s = s := by
      unfold disposeTextMesh
      rw [htm]
    rw [he]
    refine ⟨⟨hc, hm, hh⟩, htm, rfl, rfl, ?_, ⟨[], rfl⟩⟩
    intro m hm'
    exact Option.noConfusion hm'
  | some m =>
    have he : disposeTextMesh s
        = { s with pivotChildren := s.pivotChildren.erase (SceneNode.meshNode m.id),
                   disposed := m.id :: s.disposed, textMesh := none } := by
      unfold disposeTextMesh
      rw [htm]
    rw [he]
    rw [htm] at hc
    refine ⟨⟨?_, ?_, ?_⟩, rfl, rfl, rfl, ?_, ⟨[m.id], rfl⟩⟩
    · show s.pivotChildren.erase (SceneNode.meshNode m.id)
        = canonChildren none s.boundingBoxHelper
      rw [hc]
      cases hbh : s.boundingBoxHelper with
      | none => simp [canonChildren]
      | some h2 => simp [canonChildren]
    · intro m2 hm2
      exact Option.noConfusion hm2
    · intro h2 hh2
      exact hh h2 hh2
    · intro m2 hm2
      injection hm2 with hmeq
      rw [← hmeq]
      exact List.mem_cons_self m.id _

theorem inv_removeBBHelper (s : HostState) (h : Inv s) :
    Inv (removeBBHelper s)
    ∧ (removeBBHelper s).boundingBoxHelper = none
    ∧ (removeBBHelper s).textMesh = s.textMesh
    ∧ (removeBBHelper s).nextId = s.nextId
    ∧ (∃ l, (removeBBHelper s).disposed = l ++ s.disposed) := by
  obtain ⟨hc, hm, hh⟩ := h
  cases hbh : s.boundingBoxHelper with
  | none =>
    have he : removeBBHelper s = s := by
      unfold removeBBHelper
      rw [hbh]
    rw [he]
    exact ⟨⟨hc, hm, hh⟩, hbh, rfl, rfl, ⟨[], rfl⟩⟩
  | some h2 =>
    have he : removeBBHelper s
        = { s with pivotChildren := s.pivotChildren.erase (SceneNode.helperNode h2.id),
                   disposed := h2.id :: s.disposed, boundingBoxHelper := none } := by
      unfold removeBBHelper
      rw [hbh]
    rw [he]
    rw [hbh] at hc
    refine ⟨⟨?_, ?_, ?_⟩, rfl, rfl, rfl, ⟨[h2.id], rfl⟩⟩
    · show s.pivotChildren.erase (SceneNode.helperNode h2.id)
        = canonChildren s.textMesh none
      rw [hc]
      cases htm : s.textMesh with
      | none => simp [canonChildren]
      | some m => simp [canonChildren, List.erase_cons]
    · intro m2 hm2
      exact hm m2 hm2
    · intro h3 hh3
      exact Option.noConfusion hh3

theorem inv_buildBBHelper (env : Env) (s : HostState) (m' : Option Mesh) (h : Inv s)
    (hb : s.boundingBoxHelper = none) :
    Inv (buildBBHelper env s m')
    ∧ (buildBBHelper env s m').textMesh = s.textMesh
    ∧ (buildBBHelper env s m').disposed = s.disposed
    ∧ s.nextId ≤ (buildBBHelper env s m').nextId := by
  obtain ⟨hc, hm, hh⟩ := h
  cases m' with
  | none => exact ⟨⟨hc, hm, hh⟩, rfl, rfl, Nat.le_refl _⟩
  | some mm =>
    unfold buildBBHelper
    dsimp only
    by_cases hv : s.isBoundingBoxVisible = false
    · rw [if_pos hv]
      exact ⟨⟨hc, hm, hh⟩, rfl, rfl, Nat.le_refl _⟩
    · rw [if_neg hv]
      have hw : (s.isWireframe && !SHOW_BOUNDING_BOX_IN_WIREFRAME) = false := by
        unfold SHOW_BOUNDING_BOX_IN_WIREFRAME
        cases s.isWireframe <;> rfl
      rw [hw]
      rw [if_neg (by decide : ¬ (false = true))]
      rw [hb] at hc
      refine ⟨⟨?_, ?_, ?_⟩, rfl, rfl, Nat.le_succ _⟩
      · show s.pivotChildren ++ [SceneNode.helperNode s.nextId]
          = canonChildren s.textMesh (some ⟨s.nextId, _⟩)
        rw [hc]
        cases htm : s.textMesh with
        | none => simp [canonChildren]
        | some m => simp [canonChildren]
      · intro m2 hm2
        exact Nat.lt_succ_of_lt (hm m2 hm2)
      · intro h3 hh3
        injection hh3 with hq
        rw [← hq]
        exact Nat.lt_succ_self _

theorem inv_updateBBH (env : Env) (s : HostState) (m' : Option Mesh) (h : Inv s) :
    Inv (updateBoundingBoxHelper env s m')
    ∧ (updateBoundingBoxHelper env s m').textMesh = s.textMesh
    ∧ (∃ l, (updateBoundingBoxHelper env s m').disposed = l ++ s.disposed)
    ∧ s.nextId ≤ (updateBoundingBoxHelper env s m').nextId := by
  obtain ⟨h1, h2, h3, h4, l1, h5⟩ := inv_removeBBHelper s h
  obtain ⟨g1, g2, g3, g4⟩ := inv_buildBBHelper env (removeBBHelper s) m' h1 h2
  unfold updateBoundingBoxHelper
  exact ⟨g1, g2.trans h3, ⟨l1, by rw [g3, h5]⟩,
    Nat.le_trans (Nat.le_of_eq h4.symm) g4⟩

theorem sceneFields_eq_parts {s s' : HostState} (h : sceneFields s' = sceneFields s) :
    s'.pivotChildren = s.pivotChildren ∧ s'.textMesh = s.textMesh
    ∧ s'.boundingBoxHelper = s.boundingBoxHelper ∧ s'.nextId = s.nextId
    ∧ s'.disposed = s.disposed := by
  simp only [sceneFields, Prod.mk.injEq] at h
  exact h

theorem updateBBH_none (env : Env) (s : HostState) :
    updateBoundingBoxHelper env s none = removeBBHelper s := rfl

theorem inv_uvAttachMesh (s : HostState) (g : Box3) (h : Inv s)
    (htm : s.textMesh = none) (hbh : s.boundingBoxHelper = none) :
    Inv (uvAttachMesh s g)
    ∧ (uvAttachMesh s g).textMesh = some ⟨s.nextId, g⟩
    ∧ (uvAttachMesh s g).disposed = s.disposed := by
  obtain ⟨hc, hm, hh⟩ := h
  rw [htm, hbh] at hc
  unfold uvAttachMesh
  refine ⟨⟨?_, ?_, ?_⟩, rfl, rfl⟩
  · show s.pivotChildren ++ [SceneNode.meshNode s.nextId]
      = canonChildren (some ⟨s.nextId, g⟩) s.boundingBoxHelper
    rw [hc, hbh]
    simp [canonChildren]
  · intro m2 hm2
    injection hm2 with hq
    rw [← hq]
    exact Nat.lt_succ_self _
  · intro h3 hh3
    rw [hbh] at hh3
    exact Option.noConfusion hh3

theorem inv_uvPlace (env : Env) (s : HostState) (args : UpdateArgs) (g : Box3)
    (h : Inv s) (htm : s.textMesh = none) (hbh : s.boundingBoxHelper = none) :
    Inv (uvPlace env s args g)
    ∧ (∃ l, (uvPlace env s args g).disposed = l ++ s.disposed)
    ∧ (uvPlace env s args g).textMesh = some ⟨s.nextId, g⟩ := by
  obtain ⟨a1, a2, a3⟩ := inv_uvAttachMesh s g h htm hbh
  obtain ⟨p1, p2, p3, p4, p5⟩ :=
    sceneFields_eq_parts (sceneFields_uvPositionPivot env (uvAttachMesh s g) args g)
  have pInv := Inv_of_sceneFields _ _ (sceneFields_uvPositionPivot env (uvAttachMesh s g) args g) a1
  obtain ⟨f1, f2, f3, f4, f5⟩ :=
    sceneFields_eq_parts
      (sceneFields_uvFrame env (uvPositionPivot env (uvAttachMesh s g) args g) args
        ⟨s.nextId, g⟩)
  have fInv := Inv_of_sceneFields _ _
    (sceneFields_uvFrame env (uvPositionPivot env (uvAttachMesh s g) args g) args
      ⟨s.nextId, g⟩) pInv
  obtain ⟨u1, u2, u3, u4⟩ := inv_updateBBH env _ (some ⟨s.nextId, g⟩) fInv
  unfold uvPlace
  refine ⟨u1, ?_, ?_⟩
  · obtain ⟨l, hl⟩ := u3
    exact ⟨l, by rw [hl, f5, p5, a3]⟩
  · rw [u2, f2, p2, a2]

theorem inv_uvBuild (env : Env) (s : HostState) (args : UpdateArgs) (fd : FontData)
    (h : Inv s) (htm : s.textMesh = none) (hbh : s.boundingBoxHelper = none) :
    Inv (uvBuild env s args fd).1
    ∧ (∃ l, (uvBuild env s args fd).1.disposed = l ++ s.disposed)
    ∧ ((uvBuild env s args fd).1.textMesh = none
        ∨ ∃ g, (uvBuild env s args fd).1.textMesh = some ⟨s.nextId, g⟩) := by
  have hfields : sceneFields { s with is3D := args.is3D } = sceneFields s := rfl
  have hInv3 : Inv { s with is3D := args.is3D } := Inv_of_sceneFields _ _ hfields h
  unfold uvBuild
  cases hp : env.fontParser fd with
  | error e =>
    dsimp only
    exact ⟨hInv3, ⟨[], rfl⟩, Or.inl htm⟩
  | ok font =>
    dsimp only
    cases hg : createTextGeometry env font args.text args.is3D with
    | error e =>
      dsimp only
      exact ⟨hInv3, ⟨[], rfl⟩, Or.inl htm⟩
    | ok g =>
      dsimp only
      obtain ⟨q1, q2, q3⟩ := inv_uvPlace env { s with is3D := args.is3D } args g hInv3 htm hbh
      exact ⟨q1, q2, Or.inr ⟨g, q3⟩⟩

theorem inv_updateViewer (env : Env) (s : HostState) (args : UpdateArgs) (h : Inv s) :
    Inv (updateViewer env s args).1
    ∧ (¬ (args.fontHasChanged = true ∧ args.fontData = none) →
        (args.text = "" →
          meshCount (updateViewer env s args).1.pivotChildren = 0)
        ∧ (∀ m : Mesh, s.textMesh = some m →
            m.id ∈ (updateViewer env s args).1.disposed
            ∧ SceneNode.meshNode m.id ∉ (updateViewer env s args).1.pivotChildren)) := by
  by_cases hguard : (args.fontHasChanged && args.fontData.isNone) = true
  · have he : updateViewer env s args
        = (s, [reportErrorMsg ⟨"Sync Error: fontHasChanged but no fontData.", env.localStack⟩]) := by
      unfold updateViewer
      rw [if_pos hguard]
    rw [he]
    refine ⟨h, fun hng => absurd ?_ hng⟩
    rw [Bool.and_eq_true] at hguard
    refine ⟨hguard.1, ?_⟩
    cases hfd : args.fontData with
    | none => rfl
    | some fd => rw [hfd] at hguard; exact absurd hguard.2 (by simp)
  · have hguard' : (args.fontHasChanged && args.fontData.isNone) = false :=
      Bool.not_eq_true _ ▸ hguard
    -- the teardown state and its properties
    have hrec := sceneFields_eq_parts (sceneFields_uvRecordArgs s args)
    have hInvRec : Inv (uvRecordArgs s args) :=
      Inv_of_sceneFields _ _ (sceneFields_uvRecordArgs s args) h
    obtain ⟨d1, d2, d3, d4, d5, d6⟩ := inv_disposeTextMesh (uvRecordArgs s args) hInvRec
    obtain ⟨r1, r2, r3, r4, lr, r5⟩ :=
      inv_removeBBHelper (disposeTextMesh (uvRecordArgs s args)) d1
    have ht : updateBoundingBoxHelper env (disposeTextMesh (uvRecordArgs s args)) none
        = removeBBHelper (disposeTextMesh (uvRecordArgs s args)) := rfl
    have htmT : (removeBBHelper (disposeTextMesh (uvRecordArgs s args))).textMesh = none :=
      r3.trans d2
    have hmemT : ∀ m : Mesh, s.textMesh = some m →
        m.id ∈ (removeBBHelper (disposeTextMesh (uvRecordArgs s args))).disposed := by
      intro m hm
      rw [r5]
      exact List.mem_append_right _ (d5 m (hrec.2.1.trans hm))
    have hnidT : (removeBBHelper (disposeTextMesh (uvRecordArgs s args))).nextId = s.nextId :=
      r4.trans (d4.trans hrec.2.2.2.1)
    -- case split on the early returns
    have he : updateViewer env s args
        = (if args.text = "" then
            (removeBBHelper (disposeTextMesh (uvRecordArgs s args)), [])
          else
            match (removeBBHelper (disposeTextMesh (uvRecordArgs s args))).currentFontData with
            | none => (removeBBHelper (disposeTextMesh (uvRecordArgs s args)), [])
            | some fd =>
              uvBuild env (removeBBHelper (disposeTextMesh (uvRecordArgs s args))) args fd) := by
      unfold updateViewer
      rw [if_neg (by rw [hguard']; exact (by decide : ¬ (false = true)))]
      rfl
    rw [he]
    by_cases htext : args.text = ""
    · rw [if_pos htext]
      refine ⟨r1, fun hng => ⟨fun _ => ?_, fun m hm => ⟨hmemT m hm, ?_⟩⟩⟩
      · rw [r1.1, r2, htmT]
        exact meshCount_canon_none _
      · rw [r1.1]
        rw [htmT]
        exact meshNode_not_mem_canon m.id none _ (fun m2 hm2 => Option.noConfusion hm2)
    · rw [if_neg htext]
      cases hfd : (removeBBHelper (disposeTextMesh (uvRecordArgs s args))).currentFontData with
      | none =>
        refine ⟨r1, fun hng => ⟨fun hz => absurd hz htext, fun m hm => ⟨hmemT m hm, ?_⟩⟩⟩
        rw [r1.1, htmT]
        exact meshNode_not_mem_canon m.id none _ (fun m2 hm2 => Option.noConfusion hm2)
      | some fd =>
        obtain ⟨b1, b2, b3⟩ :=
          inv_uvBuild env (removeBBHelper (disposeTextMesh (uvRecordArgs s args))) args fd
            r1 htmT r2
        refine ⟨b1, fun hng => ⟨fun hz => absurd hz htext, fun m hm => ⟨?_, ?_⟩⟩⟩
        · obtain ⟨l3, hl3⟩ := b2
          rw [hl3]
          exact List.mem_append_right _ (hmemT m hm)
        · have hmlt : m.id < s.nextId := h.2.1 m hm
          rw [b1.1]
          apply meshNode_not_mem_canon
          intro m2 hm2
          cases b3 with
          | inl hn =>
            rw [hn] at hm2
            exact Option.noConfusion hm2
          | inr hex =>
            obtain ⟨g, hg⟩ := hex
            have h12 := hg.symm.trans hm2
            injection h12 with hq
            rw [← hq]
            show (removeBBHelper (disposeTextMesh (uvRecordArgs s args))).nextId ≠ m.id
            rw [hnidT]
            exact Ne.symm (Nat.ne_of_lt hmlt)

/-- A sequence of `update` commands applied to the Host state in order. -/
def applyUpdates (env : Env) (s : HostState) : List UpdateArgs → HostState
  | [] => s
  | a :: rest => applyUpdates env (updateViewer env s a).1 rest

theorem Inv_initState (env : Env) : Inv (initState env) :=
  ⟨rfl, fun _ hm => Option.noConfusion hm, fun _ hh => Option.noConfusion hh⟩

theorem Inv_applyUpdates (env : Env) :
    ∀ (l : List UpdateArgs) (s : HostState), Inv s → Inv (applyUpdates env s l)
  | [], _, h => h
  | a :: rest, s, h =>
    Inv_applyUpdates env rest (updateViewer env s a).1 (inv_updateViewer env s a h).1

/-- C5 (amended): after any sequence of `update` commands from the initial
state the pivot group holds at most one text mesh and at most one
bounding-box helper, and any further update that is not the sync-error case
(`fontHasChanged` with no `fontData`) disposes the previous mesh — its id is
recorded in the disposed list and its scene node is no longer a pivot
child — and leaves zero mesh children when its text is empty.  The original
claim asserted the zero-mesh property for every empty-text update; the
sync-error updates return before the teardown and keep the mesh (see the
counterexample). -/
theorem atMostOne_mesh_invariant (env : Env) (l : List UpdateArgs) (args : UpdateArgs)
    (hok : ¬ (args.fontHasChanged = true ∧ args.fontData = none)) :
    meshCount (applyUpdates env (initState env) l).pivotChildren ≤ 1
    ∧ helperCount (applyUpdates env (initState env) l).pivotChildren ≤ 1
    ∧ (args.text = "" →
        meshCount (updateViewer env (applyUpdates env (initState env) l) args).1.pivotChildren
          = 0)
    ∧ (∀ m : Mesh, (applyUpdates env (initState env) l).textMesh = some m →
        m.id ∈ (updateViewer env (applyUpdates env (initState env) l) args).1.disposed
        ∧ SceneNode.meshNode m.id
            ∉ (updateViewer env (applyUpdates env (initState env) l) args).1.pivotChildren) := by
  have hInv := Inv_applyUpdates env l (initState env) (Inv_initState env)
  obtain ⟨hu1, hu2⟩ := inv_updateViewer env (applyUpdates env (initState env) l) args hInv
  obtain ⟨hz, hd⟩ := hu2 hok
  refine ⟨?_, ?_, hz, hd⟩
  · rw [hInv.1]
    exact meshCount_canon _ _
  · rw [hInv.1]
    exact helperCount_canon _ _

theorem atMostOne_mesh_invariant_witness :
    meshCount (applyUpdates testEnv (initState testEnv)
      [{ fontData := some ⟨7⟩, text := "A", is3D := true, shouldFrame := false,
         shouldResetPosition := false, fontHasChanged := true }]).pivotChildren ≤ 1
    ∧ meshCount (updateViewer testEnv
        (applyUpdates testEnv (initState testEnv)
          [{ fontData := some ⟨7⟩, text := "A", is3D := true, shouldFrame := false,
             shouldResetPosition := false, fontHasChanged := true }])
        { fontData := none, text := "", is3D := true, shouldFrame := false,
          shouldResetPosition := false, fontHasChanged := false }).1.pivotChildren = 0 := by
  have h := atMostOne_mesh_invariant testEnv
    [{ fontData := some ⟨7⟩, text := "A", is3D := true, shouldFrame := false,
       shouldResetPosition := false, fontHasChanged := true }]
    { fontData := none, text := "", is3D := true, shouldFrame := false,
      shouldResetPosition := false, fontHasChanged := false }
    (by intro hc; exact Bool.noConfusion hc.1)
  exact ⟨h.1, h.2.2.1 rfl⟩

/-- The original C5 wording fails on the sync-error path: after a render
that attached a mesh, an empty-text update carrying `fontHasChanged = true`
with no `fontData` returns before the teardown, so the pivot keeps one mesh
child instead of the promised zero. -/
theorem atMostOne_mesh_counterexample :
    ({ fontData := none, text := "", is3D := true, shouldFrame := false,
       shouldResetPosition := false, fontHasChanged := true } : UpdateArgs).text = ""
    ∧ meshCount (updateViewer testEnv
        (applyUpdates testEnv (initState testEnv)
          [{ fontData := some ⟨7⟩, text := "A", is3D := true, shouldFrame := false,
             shouldResetPosition := false, fontHasChanged := true }])
        { fontData := none, text := "", is3D := true, shouldFrame := false,
          shouldResetPosition := false, fontHasChanged := true }).1.pivotChildren = 1 :=
  ⟨rfl, by decide⟩

end FontViewer
